import Mathlib

/-!
Verification development for the Ginger interpreter.

The Python sources are shallowly embedded: each embedded definition follows
one Python module.  Machine integers are `Int` (Python integers are
unbounded), Python floats are modelled as exact rationals (`Rat`); the only
float behaviour any theorem depends on is the test `b == 0` that triggers
`ZeroDivisionError` in `core.float.div`, which coincides for the literal
inputs used here.  Python dictionaries are association lists with first-match
lookup (keys are unique because the builders reject duplicates).  Fallible
Python code (anything that can `raise`) is embedded in `Except`.

The Python modules disagree on the exact field lists of the shared AST
dataclasses (the snapshot mixes revisions of `ast.py`); every embedded
record therefore carries exactly the fields that the embedded module itself
constructs and reads, as noted next to each record.
-/

set_option maxRecDepth 8000

namespace Ginger

/-! ## AST (`ginger/ast.py`), as used by `lower.py` and `eval.py` -/

structure TypeRef where
  name : String
deriving DecidableEq, Repr

structure GParam where
  name : String
  typ : TypeRef
deriving DecidableEq, Repr

inductive RequireClause where
  | requireIn (typeVar : String) (groupName : String)
  | requireGuarantees (typeVar : String) (guaranteeName : String)
deriving DecidableEq, Repr

mutual

inductive Expr where
  | identExpr (name : String)
  | intLit (value : Int)
  | floatLit (value : Rat)
  | binaryExpr (op : String) (left : Expr) (right : Expr)
  | callExpr (callee : String) (args : Args) (argStyle : String)
deriving DecidableEq, Repr

/-- A list of `PosArg` / `NamedArg` nodes (`List[Arg]` in `ast.py`),
given as a bespoke list so that the mutual recursion stays structural. -/
inductive Args where
  | nil
  | posArg (e : Expr) (rest : Args)
  | namedArg (name : String) (e : Expr) (rest : Args)
deriving DecidableEq, Repr

end

structure FuncSig where
  name : String
  params : List GParam
  ret : TypeRef
deriving DecidableEq, Repr

structure GuaranteeDecl where
  name : String
  methods : List FuncSig
deriving DecidableEq, Repr

structure TypeGroupDecl where
  name : String
  members : List TypeRef
deriving DecidableEq, Repr

structure RegisterDecl where
  typ : TypeRef
  guarantee : String
deriving DecidableEq, Repr

structure ImplMethod where
  name : String
  builtin : String
deriving DecidableEq, Repr

structure ImplDecl where
  typ : TypeRef
  guarantee : String
  methods : List ImplMethod
deriving DecidableEq, Repr

/-- Sig declaration as consumed by `symbols_builder.py` and `eval.py`:
those modules read `name`, `params` (elements with `.typ`), `ret`,
`requires`, `failure` (optional single name) and `attrs`. -/
structure SigDecl where
  name : String
  params : List GParam
  ret : TypeRef
  requires : List RequireClause
  failure : Option TypeRef
  attrs : List String
deriving DecidableEq, Repr

mutual

/-- Top-level item or function-body statement.  `ast.py` keeps `TopLevel`
and `Stmt` as overlapping unions; both are covered by this one type, which
is also what `lower.py` and `eval.py` traverse. -/
inductive Item where
  | guaranteeDecl (d : GuaranteeDecl)
  | typeGroupDecl (d : TypeGroupDecl)
  | registerDecl (d : RegisterDecl)
  | implDecl (d : ImplDecl)
  | sigDecl (d : SigDecl)
  | funcDecl (name : String) (params : List GParam) (body : Body) (attrs : List String)
  | varDecl (mutable : Bool) (typ : TypeRef) (name : String) (expr : Expr)
  | assignStmt (name : String) (expr : Expr)
  | exprStmt (expr : Expr)
  | tryStmt (expr : Expr)
  | catchStmt (failureName : String) (expr : Expr)
  | returnStmt (expr : Expr)
deriving DecidableEq, Repr

/-- Statement list of a block (`BlockStmt.stmts`), bespoke for structural
mutual recursion. -/
inductive Body where
  | nil
  | cons (s : Item) (rest : Body)
deriving DecidableEq, Repr

end

/-! ## Lowering (`ginger/lower.py`) -/

/-- The `OP_TO_CALEE` dictionary of `lower.py`; `dict.get`-style lookup. -/
def opToCallee : String → Option String
  | "+" => some "add"
  | "-" => some "sub"
  | "*" => some "mul"
  | "/" => some "div"
  | _ => none

mutual

/-- Embeds `lower_expr`: `BinaryExpr` becomes a `CallExpr` of the mapped
callee with both operands recursively lowered as positional args; call
arguments are lowered in place; leaves pass through.  An unknown operator
raises `SyntaxError` (the `Except.error` case). -/
def lowerExpr : Expr → Except String Expr
  | .identExpr n => .ok (.identExpr n)
  | .intLit v => .ok (.intLit v)
  | .floatLit v => .ok (.floatLit v)
  | .binaryExpr op l r =>
    match lowerExpr l with
    | .error e => .error e
    | .ok l' =>
      match lowerExpr r with
      | .error e => .error e
      | .ok r' =>
        match opToCallee op with
        | none => .error ("unknown binary operator " ++ op)
        | some c => .ok (.callExpr c (.posArg l' (.posArg r' .nil)) "pos")
  | .callExpr c args style =>
    match lowerArgs args with
    | .error e => .error e
    | .ok args' => .ok (.callExpr c args' style)

/-- Embeds the argument loop of `lower_expr` (`replace(a, expr=lower_expr(a.expr))`). -/
def lowerArgs : Args → Except String Args
  | .nil => .ok .nil
  | .posArg e rest =>
    match lowerExpr e with
    | .error err => .error err
    | .ok e' =>
      match lowerArgs rest with
      | .error err => .error err
      | .ok rest' => .ok (.posArg e' rest')
  | .namedArg n e rest =>
    match lowerExpr e with
    | .error err => .error err
    | .ok e' =>
      match lowerArgs rest with
      | .error err => .error err
      | .ok rest' => .ok (.namedArg n e' rest')

end

mutual

/-- Embeds `lower_toplevel` and the per-statement cases of `lower_block`:
expressions inside statements are lowered, function bodies are lowered
recursively, and catalog items pass through unchanged. -/
def lowerItem : Item → Except String Item
  | .exprStmt e =>
    match lowerExpr e with
    | .error err => .error err
    | .ok e' => .ok (.exprStmt e')
  | .tryStmt e =>
    match lowerExpr e with
    | .error err => .error err
    | .ok e' => .ok (.tryStmt e')
  | .catchStmt fn e =>
    match lowerExpr e with
    | .error err => .error err
    | .ok e' => .ok (.catchStmt fn e')
  | .varDecl m t n e =>
    match lowerExpr e with
    | .error err => .error err
    | .ok e' => .ok (.varDecl m t n e')
  | .assignStmt n e =>
    match lowerExpr e with
    | .error err => .error err
    | .ok e' => .ok (.assignStmt n e')
  | .returnStmt e =>
    match lowerExpr e with
    | .error err => .error err
    | .ok e' => .ok (.returnStmt e')
  | .funcDecl n ps b attrs =>
    match lowerBody b with
    | .error err => .error err
    | .ok b' => .ok (.funcDecl n ps b' attrs)
  | .guaranteeDecl d => .ok (.guaranteeDecl d)
  | .typeGroupDecl d => .ok (.typeGroupDecl d)
  | .registerDecl d => .ok (.registerDecl d)
  | .implDecl d => .ok (.implDecl d)
  | .sigDecl d => .ok (.sigDecl d)

/-- Embeds the loop of `lower_block`. -/
def lowerBody : Body → Except String Body
  | .nil => .ok .nil
  | .cons s rest =>
    match lowerItem s with
    | .error err => .error err
    | .ok s' =>
      match lowerBody rest with
      | .error err => .error err
      | .ok rest' => .ok (.cons s' rest')

end

/-- Embeds `lower_program` (the item loop). -/
def lowerItems : List Item → Except String (List Item)
  | [] => .ok []
  | it :: rest =>
    match lowerItem it with
    | .error err => .error err
    | .ok it' =>
      match lowerItems rest with
      | .error err => .error err
      | .ok rest' => .ok (it' :: rest')

mutual

/-- True iff no `BinaryExpr` node occurs in the expression. -/
def noBinExpr : Expr → Bool
  | .identExpr _ => true
  | .intLit _ => true
  | .floatLit _ => true
  | .binaryExpr _ _ _ => false
  | .callExpr _ args _ => noBinArgs args

def noBinArgs : Args → Bool
  | .nil => true
  | .posArg e rest => noBinExpr e && noBinArgs rest
  | .namedArg _ e rest => noBinExpr e && noBinArgs rest

end

mutual

/-- True iff no `BinaryExpr` occurs anywhere in the item, including call
arguments and function bodies. -/
def noBinItem : Item → Bool
  | .exprStmt e => noBinExpr e
  | .tryStmt e => noBinExpr e
  | .catchStmt _ e => noBinExpr e
  | .varDecl _ _ _ e => noBinExpr e
  | .assignStmt _ e => noBinExpr e
  | .returnStmt e => noBinExpr e
  | .funcDecl _ _ b _ => noBinBody b
  | .guaranteeDecl _ => true
  | .typeGroupDecl _ => true
  | .registerDecl _ => true
  | .implDecl _ => true
  | .sigDecl _ => true

def noBinBody : Body → Bool
  | .nil => true
  | .cons s rest => noBinItem s && noBinBody rest

end

def noBinItems : List Item → Bool
  | [] => true
  | it :: rest => noBinItem it && noBinItems rest

/-! ## FailureId (`ginger/core/failure_spec.py`)

The enum has exactly five members; the member named `UnexpecterErr` carries
the string value `"UnexpectedErr"`.  There is no member `DivideByZero`. -/

inductive FailureId where
  | printErr
  | ioErr
  | timeErr
  | randomErr
  | unexpecterErr
deriving DecidableEq, Repr, Fintype

/-- The string value of each enum member (`FailureId` subclasses `str`). -/
def FailureId.value : FailureId → String
  | .printErr => "PrintErr"
  | .ioErr => "IOErr"
  | .timeErr => "TimeErr"
  | .randomErr => "RandomErr"
  | .unexpecterErr => "UnexpectedErr"

/-- The Python attribute names of the members of `FailureId`, in declaration
order. -/
def FailureId.memberNames : List String :=
  ["PrintErr", "IOErr", "TimeErr", "RandomErr", "UnexpecterErr"]

/-- Python attribute access `FailureId.<name>`: `none` models the
`AttributeError` raised when no member of that name exists. -/
def FailureId.fromMemberName : String → Option FailureId
  | "PrintErr" => some .printErr
  | "IOErr" => some .ioErr
  | "TimeErr" => some .timeErr
  | "RandomErr" => some .randomErr
  | "UnexpecterErr" => some .unexpecterErr
  | _ => none

/-- Python value lookup `FailureId("...")` (by member *value*); `none`
models the `ValueError` raised for an unknown value. -/
def FailureId.fromValue : String → Option FailureId
  | "PrintErr" => some .printErr
  | "IOErr" => some .ioErr
  | "TimeErr" => some .timeErr
  | "RandomErr" => some .randomErr
  | "UnexpectedErr" => some .unexpecterErr
  | _ => none

/-! ## Runtime values and errors (`ginger/eval.py`, `ginger/builtin.py`)

Python runtime values are `int`, `float`, `str`, `bool`, `None` (Unit) and
the tagged ordering tuple `("Ordering", tag)`.  Host output (what the print
builtins write to stdout) is not modelled; a print builtin returns Unit. -/

inductive Value where
  | int (n : Int)
  | float (x : Rat)
  | str (s : String)
  | bool (b : Bool)
  | unit
  | ordering (tag : String)
deriving DecidableEq, Repr

/-- Runtime-error outcomes.  `raised` is `RaisedFailure`; `evalError` and
`typecheckError` are the project's exception classes; `zeroDivisionError`
is Python's `ZeroDivisionError`; `pyAttributeError` is Python's
`AttributeError` (carrying the missing attribute name); `pyError` covers
the remaining Python-level exceptions (`KeyError`, `TypeError`);
`outOfFuel` is the embedding's recursion bound, never produced by any
theorem's run. -/
inductive RtErr where
  | raised (fid : FailureId)
  | evalError (msg : String)
  | typecheckError (msg : String)
  | zeroDivisionError
  | pyAttributeError (name : String)
  | pyError (msg : String)
  | outOfFuel
deriving DecidableEq, Repr

/-- Python `a + b` on runtime values (numeric and string cases; the
builtins are only ever applied to these). -/
def pyAdd : Value → Value → Except RtErr Value
  | .int a, .int b => .ok (.int (a + b))
  | .int a, .float b => .ok (.float (a + b))
  | .float a, .int b => .ok (.float (a + b))
  | .float a, .float b => .ok (.float (a + b))
  | .str a, .str b => .ok (.str (a ++ b))
  | _, _ => .error (.pyError "unsupported operand type(s) for +")

/-- Python `a - b`. -/
def pySub : Value → Value → Except RtErr Value
  | .int a, .int b => .ok (.int (a - b))
  | .int a, .float b => .ok (.float (a - b))
  | .float a, .int b => .ok (.float (a - b))
  | .float a, .float b => .ok (.float (a - b))
  | _, _ => .error (.pyError "unsupported operand type(s) for -")

/-- Python `a * b` (numeric cases). -/
def pyMul : Value → Value → Except RtErr Value
  | .int a, .int b => .ok (.int (a * b))
  | .int a, .float b => .ok (.float (a * b))
  | .float a, .int b => .ok (.float (a * b))
  | .float a, .float b => .ok (.float (a * b))
  | _, _ => .error (.pyError "unsupported operand type(s) for *")

/-- Numeric view of a value, used by division and comparison. -/
def Value.asNum : Value → Option Rat
  | .int n => some (n : Rat)
  | .float x => some x
  | _ => none

/-- Python `a / b`: true division, raising `ZeroDivisionError` when the
divisor equals zero; the result is always a float. -/
def pyDiv : Value → Value → Except RtErr Value
  | a, b =>
    match a.asNum, b.asNum with
    | some x, some y =>
      if y = 0 then .error .zeroDivisionError else .ok (.float (x / y))
    | _, _ => .error (.pyError "unsupported operand type(s) for /")

/-- Python `-a`. -/
def pyNeg : Value → Except RtErr Value
  | .int a => .ok (.int (-a))
  | .float a => .ok (.float (-a))
  | _ => .error (.pyError "bad operand type for unary -")

/-- The `cmp` builtins: `Ordering(Left)` when `a > b`, `Flat` when equal,
`Right` when `a < b`. -/
def pyCmp : Value → Value → Except RtErr Value
  | a, b =>
    match a.asNum, b.asNum with
    | some x, some y =>
      if x > y then .ok (.ordering "Left")
      else if x = y then .ok (.ordering "Flat")
      else .ok (.ordering "Right")
    | _, _ => .error (.pyError "unsupported comparison")

/-- Embeds `call_builtin` over the `BUILTINS` table of `builtin.py`.
An unknown id raises `KeyError`; an arity mismatch is Python's
`TypeError`; both are modelled as `pyError` (neither is caught by the
`ZeroDivisionError` handler in `eval_call`). -/
def callBuiltin : String → List Value → Except RtErr Value
  | "core.int.add", [a, b] => pyAdd a b
  | "core.float.add", [a, b] => pyAdd a b
  | "core.int.sub", [a, b] => pySub a b
  | "core.float.sub", [a, b] => pySub a b
  | "core.int.mul", [a, b] => pyMul a b
  | "core.float.mul", [a, b] => pyMul a b
  | "core.float.div", [a, b] => pyDiv a b
  | "core.int.neg", [a] => pyNeg a
  | "core.float.neg", [a] => pyNeg a
  | "core.int.toFloat", [a] =>
    match a.asNum with
    | some x => .ok (.float x)
    | none => .error (.pyError "float() argument")
  | "core.int.print", [_] => .ok .unit
  | "core.float.print", [_] => .ok .unit
  | "core.string.print", [_] => .ok .unit
  | "core.ordering.print", [v] =>
    match v with
    | .ordering _ => .ok .unit
    | _ => .error (.pyError "not subscriptable")
  | "core.int.cmp", [a, b] => pyCmp a b
  | "core.float.cmp", [a, b] => pyCmp a b
  | name, args =>
    if name ∈ ["core.int.add", "core.float.add", "core.int.sub", "core.float.sub",
        "core.int.mul", "core.float.mul", "core.float.div", "core.int.neg",
        "core.float.neg", "core.int.toFloat", "core.int.print", "core.float.print",
        "core.string.print", "core.ordering.print", "core.int.cmp", "core.float.cmp"]
    then .error (.pyError ("arity mismatch for builtin " ++ name ++ " with " ++
      toString args.length ++ " args"))
    else .error (.pyError ("unknown builtin '" ++ name ++ "'"))

/-- Embeds `_runtime_type` of `eval.py`; the ordering tuple is not known to
it and raises `EvalError`. -/
def runtimeType : Value → Except RtErr String
  | .bool _ => .ok "Bool"
  | .int _ => .ok "Int"
  | .float _ => .ok "Float"
  | .str _ => .ok "String"
  | .unit => .ok "Unit"
  | .ordering _ => .error (.evalError "unknown runtime value type")

/-! ## Evaluator (`ginger/eval.py`) -/

/-- First-match association-list lookup, modelling Python `dict` access
(keys are unique where these lists are built). -/
def alookup {α : Type} : List (String × α) → String → Option α
  | [], _ => none
  | (k, v) :: rest, key => if k = key then some v else alookup rest key

/-- Triple-keyed lookup for the `impls` table. -/
def ilookup {α : Type} : List ((String × String × String) × α) →
    String × String × String → Option α
  | [], _ => none
  | (k, v) :: rest, key => if k = key then some v else ilookup rest key

structure Cell where
  value : Value
  mutable : Bool
deriving DecidableEq, Repr

/-- The evaluator environment `env: Dict[str, Cell]`. -/
abbrev Env : Type := List (String × Cell)

/-- Python dict update `env[name] = cell`: replace in place, else append. -/
def envSet : Env → String → Cell → Env
  | [], n, c => [(n, c)]
  | (k, v) :: rest, n, c =>
    if k = n then (k, c) :: rest else (k, v) :: envSet rest n c

/-- A user func as stored in `syms.funcs` and read by `eval_user_func`
(`fdecl.params`, `fdecl.body`). -/
structure FuncEntry where
  params : List GParam
  body : Body
deriving DecidableEq, Repr

/-- The pieces of the frozen `Symbols` bundle that `eval.py` reads. -/
structure Syms where
  sigs : List (String × SigDecl)
  sigAttrs : List (String × List String)
  funcs : List (String × FuncEntry)
  impls : List ((String × String × String) × String)
deriving Repr

/-- The `RequireGuarantees` filter of `eval_call`. -/
def reqGuarsOf : List RequireClause → List String
  | [] => []
  | .requireGuarantees _ g :: rest => g :: reqGuarsOf rest
  | .requireIn _ _ :: rest => reqGuarsOf rest

/-- The outcome of one matched catch handler: the inline
`try/except RaisedFailure` block inside the catch loop of `eval_program`
(a further failure of the same name is swallowed, any other one
propagates, any non-`RaisedFailure` error propagates as well). -/
def catchOutcome : Except RtErr Value → String → Except RtErr Unit
  | .ok _, _ => .ok ()
  | .error (.raised rf2), name =>
    if rf2.value = name then .ok () else .error (.raised rf2)
  | .error e, _ => .error e

/-- Collects the maximal run of `CatchStmt`s after a `TryStmt`
(the `while ... isinstance(..., CatchStmt)` loop). -/
def takeCatches : List Item → List (String × Expr)
  | .catchStmt n e :: rest => (n, e) :: takeCatches rest
  | _ => []

/-- The remaining items after the catch run (`i = j`). -/
def dropCatches : List Item → List Item
  | .catchStmt _ _ :: rest => dropCatches rest
  | l => l

def isCatchItem : Item → Bool
  | .catchStmt _ _ => true
  | _ => false

/-- `CatchStmt` item built from a (failure-name, handler) pair. -/
def catchItem (p : String × Expr) : Item :=
  .catchStmt p.1 p.2

/-- Item list made of a run of `CatchStmt`s followed by the given tail. -/
def catchItems : List (String × Expr) → List Item → List Item
  | [], rest => rest
  | (n, e) :: ps, rest => .catchStmt n e :: catchItems ps rest

mutual

/-- Embeds `eval_expr`.  The fuel argument only bounds recursion through
user-function bodies and the statement loop; no theorem depends on the
`outOfFuel` case. -/
def evalExpr : Nat → Syms → Env → Option Env → Expr → Except RtErr Value
  | 0, _, _, _, _ => .error .outOfFuel
  | _ + 1, _, _, _, .intLit v => .ok (.int v)
  | _ + 1, _, _, _, .floatLit v => .ok (.float v)
  | _ + 1, _, env, outer, .identExpr n =>
    match alookup env n with
    | some c => .ok c.value
    | none =>
      match outer with
      | some o =>
        match alookup o n with
        | some c => .ok c.value
        | none => .error (.evalError ("unknown identifier '" ++ n ++ "'"))
      | none => .error (.evalError ("unknown identifier '" ++ n ++ "'"))
  | _ + 1, _, _, _, .binaryExpr _ _ _ =>
    .error (.typecheckError "internal error: BinaryExpr should have been lowered to CallExpr")
  | fuel + 1, syms, env, outer, .callExpr c args style =>
    evalCall fuel syms env outer c args style

/-- Embeds the left-to-right argument evaluation of `eval_call`
(`a.expr` is evaluated for positional and named nodes alike). -/
def evalArgs : Nat → Syms → Env → Option Env → Args → Except RtErr (List Value)
  | 0, _, _, _, _ => .error .outOfFuel
  | _ + 1, _, _, _, .nil => .ok []
  | fuel + 1, syms, env, outer, .posArg e rest =>
    match evalExpr fuel syms env outer e with
    | .error err => .error err
    | .ok v =>
      match evalArgs fuel syms env outer rest with
      | .error err => .error err
      | .ok vs => .ok (v :: vs)
  | fuel + 1, syms, env, outer, .namedArg _ e rest =>
    match evalExpr fuel syms env outer e with
    | .error err => .error err
    | .ok v =>
      match evalArgs fuel syms env outer rest with
      | .error err => .error err
      | .ok vs => .ok (v :: vs)

/-- Embeds `eval_call`: named style is rejected, arguments are evaluated
left to right, a user func takes precedence, otherwise sig-based dispatch
resolves `(type-of-first-arg, guarantee, sig-name)` in `impls` and invokes
the builtin; a `ZeroDivisionError` from the builtin reaches
`raise RaisedFailure(FailureId.DivideByZero)`, whose member access on the
five-member enum is an `AttributeError`. -/
def evalCall : Nat → Syms → Env → Option Env → String → Args → String →
    Except RtErr Value
  | 0, _, _, _, _, _, _ => .error .outOfFuel
  | fuel + 1, syms, env, outer, callee, args, style =>
    if style ≠ "pos" then
      .error (.evalError ("named args not supported at runtime for '" ++ callee ++ "'"))
    else
      match evalArgs fuel syms env outer args with
      | .error err => .error err
      | .ok vals =>
        match alookup syms.funcs callee with
        | some f => evalUserFunc fuel syms callee f vals env
        | none =>
          match alookup syms.sigs callee with
          | some sig =>
            match reqGuarsOf sig.requires with
            | [guar] =>
              match vals with
              | [] => .error (.evalError ("sig '" ++ sig.name ++ "' needs args for runtime dispatch"))
              | v0 :: _ =>
                match runtimeType v0 with
                | .error err => .error err
                | .ok t0 =>
                  match ilookup syms.impls (t0, guar, sig.name) with
                  | none =>
                    .error (.evalError ("no impl for " ++ t0 ++ " guarantees " ++
                      guar ++ "." ++ sig.name))
                  | some builtinId =>
                    match callBuiltin builtinId vals with
                    | .error .zeroDivisionError =>
                      match FailureId.fromMemberName "DivideByZero" with
                      | some fid => .error (.raised fid)
                      | none => .error (.pyAttributeError "DivideByZero")
                    | r => r
            | gs =>
              .error (.evalError ("sig '" ++ sig.name ++
                "' must have exactly 1 'require T guarantees G' for runtime dispatch (got " ++
                toString gs.length ++ ")"))
          | none =>
            .error (.evalError ("function '" ++ callee ++ "' has no runtime implementation yet"))

/-- Embeds `eval_user_func`: positional immutable parameter binding, the
caller environment as `outer`, `ReturnSignal` as the `some` block result,
and the `@attr.handled` swallow of an escaping `RaisedFailure`. -/
def evalUserFunc : Nat → Syms → String → FuncEntry → List Value → Env →
    Except RtErr Value
  | 0, _, _, _, _, _ => .error .outOfFuel
  | fuel + 1, syms, fname, fdecl, vals, callerEnv =>
    if vals.length ≠ fdecl.params.length then
      .error (.evalError ("argument count mismatch in call to " ++ fname))
    else
      let local_ : Env := (fdecl.params.zip vals).map fun pv => (pv.1.name, ⟨pv.2, false⟩)
      match evalBlock fuel syms local_ (some callerEnv) fdecl.body with
      | .ok none => .ok .unit
      | .ok (some v) => .ok v
      | .error (.raised rf) =>
        if "handled" ∈ ((alookup syms.sigAttrs fname).getD []) then .ok .unit
        else .error (.raised rf)
      | .error e => .error e

/-- Embeds `eval_block`: a `ReturnStmt` short-circuits with its value
(`some v`), an `ExprStmt` evaluates and discards, anything else is an
`EvalError`; falling off the end yields `none` (implicit Unit). -/
def evalBlock : Nat → Syms → Env → Option Env → Body → Except RtErr (Option Value)
  | 0, _, _, _, _ => .error .outOfFuel
  | _ + 1, _, _, _, .nil => .ok none
  | fuel + 1, syms, env, outer, .cons s rest =>
    match s with
    | .returnStmt e =>
      match evalExpr fuel syms env outer e with
      | .error err => .error err
      | .ok v => .ok (some v)
    | .exprStmt e =>
      match evalExpr fuel syms env outer e with
      | .error err => .error err
      | .ok _ => evalBlock fuel syms env outer rest
    | _ => .error (.evalError "unsupported statement in func body")

end

/-- Embeds the catch loop of `eval_program`: scan in order, the first
catch whose `failure_name` equals the failure's string value runs its
handler through `catchOutcome`; no match re-raises the failure. -/
def runCatches (fuel : Nat) (syms : Syms) (env : Env) (rf : FailureId) :
    List (String × Expr) → Except RtErr Unit
  | [] => .error (.raised rf)
  | (name, ce) :: rest =>
    if rf.value = name then catchOutcome (evalExpr fuel syms env none ce) name
    else runCatches fuel syms env rf rest

/-- Embeds the top-level statement loop of `eval_program` (the `Symbols`
construction at its entry is kept as an explicit parameter). -/
def evalItems : Nat → Syms → Env → List Item → Except RtErr Env
  | 0, _, _, _ => .error .outOfFuel
  | _ + 1, _, env, [] => .ok env
  | fuel + 1, syms, env, .tryStmt e :: rest =>
    match takeCatches rest with
    | [] => .error (.evalError "try must be followed by at least one catch")
    | catches =>
      match evalExpr fuel syms env none e with
      | .ok _ => evalItems fuel syms env (dropCatches rest)
      | .error (.raised rf) =>
        match runCatches fuel syms env rf catches with
        | .ok _ => evalItems fuel syms env (dropCatches rest)
        | .error err => .error err
      | .error err => .error err
  | _ + 1, _, _, .catchStmt _ _ :: _ =>
    .error (.evalError "catch without preceding try")
  | fuel + 1, syms, env, .varDecl m _ n e :: rest =>
    match evalExpr fuel syms env none e with
    | .error err => .error err
    | .ok v => evalItems fuel syms (envSet env n ⟨v, m⟩) rest
  | fuel + 1, syms, env, .assignStmt n e :: rest =>
    match alookup env n with
    | none => .error (.evalError ("unknown identifier '" ++ n ++ "'"))
    | some cell =>
      if cell.mutable = false then
        .error (.evalError ("cannot assign to immutable binding '" ++ n ++ "'"))
      else
        match evalExpr fuel syms env none e with
        | .error err => .error err
        | .ok v => evalItems fuel syms (envSet env n ⟨v, cell.mutable⟩) rest
  | fuel + 1, syms, env, .exprStmt e :: rest =>
    match evalExpr fuel syms env none e with
    | .error err => .error err
    | .ok _ => evalItems fuel syms env rest
  | fuel + 1, syms, env, _ :: rest => evalItems fuel syms env rest

/-- Head of the item list is not a `CatchStmt` (or the list is empty). -/
def headNotCatch : List Item → Bool
  | [] => true
  | it :: _ => !isCatchItem it

/-- Empty symbol table (no sigs, no funcs, no impls). -/
def emptySyms : Syms :=
  ⟨[], [], [], []⟩

/-- The symbol table of the C1 failing input: the math catalog's `div` sig
(requiring `Divisible`) and its `Float` impl bound to `core.float.div`. -/
def c1Syms : Syms where
  sigs := [("div",
    ⟨"div", [⟨"a", ⟨"T"⟩⟩, ⟨"b", ⟨"T"⟩⟩], ⟨"Float"⟩,
      [.requireGuarantees "T" "Divisible"], none, []⟩)]
  sigAttrs := [("div", [])]
  funcs := []
  impls := [(("Float", "Divisible", "div"), "core.float.div")]

/-- The C1 failing input: the statement `div(1.0, 0.0)`. -/
def c1Prog : List Item :=
  [.exprStmt (.callExpr "div" (.posArg (.floatLit 1) (.posArg (.floatLit 0) .nil)) "pos")]

/-! ## Symbol builder, `FuncDecl` branch (`ginger/symbols_builder.py`) -/

/-- Func declaration as read by the `FuncDecl` branch of `build_symbols`
(`item.name`, `item.params` whose elements expose `.typ`, and `item.ret`,
which that branch compares against `sig.ret`). -/
structure BFuncDecl where
  name : String
  params : List GParam
  ret : TypeRef
deriving DecidableEq, Repr

/-- Embeds the `FuncDecl` branch of `build_symbols` (duplicate check,
sig-existence check, the pointwise parameter-type comparison
`len(...) != len(...) or any(p.typ.name != sp.typ.name for ...)`, and the
return-type comparison). -/
def checkFuncDecl (funcs : List String) (sigs : List (String × SigDecl))
    (f : BFuncDecl) : Except String Unit :=
  if f.name ∈ funcs then .error ("duplicate func '" ++ f.name ++ "'")
  else
    match alookup sigs f.name with
    | none =>
      .error ("func '" ++ f.name ++ "' has no corresponding sig '" ++ f.name ++ "'")
    | some sig =>
      if f.params.length ≠ sig.params.length ∨
          (f.params.zip sig.params).any (fun q => q.1.typ.name ≠ q.2.typ.name) then
        .error ("func '" ++ f.name ++ "' signature does not match its sig")
      else if f.ret.name ≠ sig.ret.name then
        .error ("func '" ++ f.name ++ "' return type does not match its sig")
      else .ok ()

/-- C4 fixture: a sig whose parameter types are `(Int, Float)`. -/
def c4Sig : SigDecl :=
  ⟨"pair", [⟨"a", ⟨"Int"⟩⟩, ⟨"b", ⟨"Float"⟩⟩], ⟨"Unit"⟩, [], none, []⟩

/-- C4 fixture: a func of the same name whose parameter types `(Float, Int)`
are a proper permutation of the sig's. -/
def c4Func : BFuncDecl :=
  ⟨"pair", [⟨"x", ⟨"Float"⟩⟩, ⟨"y", ⟨"Int"⟩⟩], ⟨"Unit"⟩⟩

/-- C4 fixture: a func matching the sig's parameter order. -/
def c4FuncOk : BFuncDecl :=
  ⟨"pair", [⟨"x", ⟨"Int"⟩⟩, ⟨"y", ⟨"Float"⟩⟩], ⟨"Unit"⟩⟩

/-! ## Type checker (`ginger/typecheck.py`)

This module carries its own older `Symbols` and `FuncDecl` shapes: callees
are looked up in `syms.funcs`, whose entries have `name`, named `params`,
`ret` and `requires`. -/

/-- Callable entry of `typecheck.py` (`func.name/params/ret/requires`). -/
structure TFuncDecl where
  name : String
  params : List GParam
  ret : TypeRef
  requires : List RequireClause
deriving DecidableEq, Repr

/-- The parts of `typecheck.Symbols` read by `type_expr`/`type_call`. -/
structure TSymbols where
  typegroups : List (String × List String)
  typeGuarantees : List (String × List String)
  funcs : List (String × TFuncDecl)
deriving Repr

/-- Argument nodes flattened to (optional name, expression) pairs. -/
def argsList : Args → List (Option String × Expr)
  | .nil => []
  | .posArg e rest => (none, e) :: argsList rest
  | .namedArg n e rest => (some n, e) :: argsList rest

/-- Embeds `is_typevar`: a single uppercase letter. -/
def isTypevar (s : String) : Bool :=
  match s.toList with
  | [c] => c.isAlpha && c.isUpper
  | _ => false

/-- Embeds `resolve_typeref`. -/
def resolveTyperef (t : TypeRef) (tmap : List (String × String)) :
    Except String String :=
  if isTypevar t.name then
    match alookup tmap t.name with
    | none => .error ("cannot resolve type variable '" ++ t.name ++ "'")
    | some c => .ok c
  else .ok t.name

/-- Positional branch of `bind_args`: arity check, then one binding per
parameter name; a named node where a positional one is asserted is the
Python `assert isinstance(arg, PosArg)` failure. -/
def bindPos (callee : String) (pnames : List String)
    (args : List (Option String × Expr)) : Except String (List (String × Expr)) :=
  if args.length ≠ pnames.length then
    .error ("argument count mismatch in call to " ++ callee)
  else
    (pnames.zip args).foldr
      (fun pa acc =>
        match acc with
        | .error err => .error err
        | .ok bound =>
          match pa.2.1 with
          | some _ => .error "AssertionError"
          | none => .ok ((pa.1, pa.2.2) :: bound))
      (.ok [])

/-- Named branch of `bind_args`: every node must be named, its name must be
a parameter, duplicates are rejected, and missing parameters are reported
after the loop. -/
def bindNamed (callee : String) (pnames : List String)
    (bound : List (String × Expr)) :
    List (Option String × Expr) → Except String (List (String × Expr))
  | [] =>
    if (pnames.filter fun p => alookup bound p = none) ≠ [] then
      .error ("missing required argument(s) in call to " ++ callee)
    else .ok bound
  | (none, _) :: _ => .error "AssertionError"
  | (some n, e) :: rest =>
    if n ∉ pnames then
      .error ("unknown named argument '" ++ n ++ "' in call to " ++ callee)
    else if (alookup bound n).isSome then
      .error ("duplicate named argument '" ++ n ++ "' in call to " ++ callee)
    else bindNamed callee pnames (bound ++ [(n, e)]) rest

/-- Embeds `bind_args` of `typecheck.py`. -/
def bindArgs (callee : String) (func : TFuncDecl) (args : Args)
    (argStyle : String) : Except String (List (String × Expr)) :=
  let pnames := func.params.map (·.name)
  if argStyle = "pos" then bindPos callee pnames (argsList args)
  else if argStyle = "named" then bindNamed callee pnames [] (argsList args)
  else .error ("invalid arg_style '" ++ argStyle ++ "' in call to " ++ callee)

/-- Embeds the `require` loop of `type_call`. -/
def checkRequires (syms : TSymbols) (tmap : List (String × String))
    (fname : String) : List RequireClause → Except String Unit
  | [] => .ok ()
  | .requireIn tv group :: rest =>
    match alookup tmap tv with
    | none =>
      .error ("cannot check requirement '" ++ tv ++ " in " ++ group ++
        "': type variable '" ++ tv ++ "' not determined in call to " ++ fname)
    | some concrete =>
      if concrete ∉ (alookup syms.typegroups group).getD [] then
        .error ("requirement not satisfied in call to " ++ fname ++ ": " ++
          tv ++ " in " ++ group ++ " required, but " ++ tv ++ " = " ++ concrete)
      else checkRequires syms tmap fname rest
  | .requireGuarantees tv g :: rest =>
    match alookup tmap tv with
    | none =>
      .error ("cannot check requirement '" ++ tv ++ " guarantees " ++ g ++
        "': type variable '" ++ tv ++ "' not determined in call to " ++ fname)
    | some concrete =>
      if g ∉ (alookup syms.typeGuarantees concrete).getD [] then
        .error ("requirement not satisfied in call to " ++ fname ++ ": " ++
          concrete ++ " does not guarantee " ++ g)
      else checkRequires syms tmap fname rest

mutual

/-- Embeds `type_expr` of `typecheck.py` (literals, identifiers, calls;
anything else, `BinaryExpr` included, is "unsupported expr node").  Fuel
only bounds recursion through call arguments; no theorem depends on the
out-of-fuel case. -/
def typeExpr : Nat → TSymbols → List (String × String) → Option String →
    Expr → Except String String
  | 0, _, _, _, _ => .error "out of fuel"
  | _ + 1, _, _, expected, .intLit _ =>
    match expected with
    | some exp =>
      if exp ≠ "Int" then .error ("type mismatch: expected " ++ exp ++ ", got Int")
      else .ok "Int"
    | none => .ok "Int"
  | _ + 1, _, _, expected, .floatLit _ =>
    match expected with
    | some exp =>
      if exp ≠ "Float" then .error ("type mismatch: expected " ++ exp ++ ", got Float")
      else .ok "Float"
    | none => .ok "Float"
  | _ + 1, _, env, expected, .identExpr n =>
    match alookup env n with
    | none => .error ("unknown identifier '" ++ n ++ "'")
    | some t =>
      match expected with
      | some exp =>
        if t ≠ exp then .error ("type mismatch: expected " ++ exp ++ ", got " ++ t)
        else .ok t
      | none => .ok t
  | fuel + 1, syms, env, expected, .callExpr c args style =>
    typeCall fuel syms env expected c args style
  | _ + 1, _, _, _, .binaryExpr _ _ _ => .error "unsupported expr node"

/-- Embeds the type-variable inference loop (step 2 of `type_call`). -/
def inferTVars : Nat → TSymbols → List (String × String) →
    List (String × Expr) → List GParam → List (String × String) →
    Except String (List (String × String))
  | 0, _, _, _, _, _ => .error "out of fuel"
  | _ + 1, _, _, _, [], tmap => .ok tmap
  | fuel + 1, syms, env, bound, p :: ps, tmap =>
    match alookup bound p.name with
    | none => .error ("internal error: param '" ++ p.name ++ "' not bound")
    | some be =>
      if isTypevar p.typ.name ∧ alookup tmap p.typ.name = none then
        match typeExpr fuel syms env none be with
        | .error err => .error err
        | .ok inferred =>
          inferTVars fuel syms env bound ps (tmap ++ [(p.typ.name, inferred)])
      else inferTVars fuel syms env bound ps tmap

/-- Embeds the final argument re-check loop (step 4 of `type_call`). -/
def checkCallArgs : Nat → TSymbols → List (String × String) →
    List (String × Expr) → List (String × String) → List GParam →
    Except String Unit
  | 0, _, _, _, _, _ => .error "out of fuel"
  | _ + 1, _, _, _, _, [] => .ok ()
  | fuel + 1, syms, env, bound, tmap, p :: ps =>
    match resolveTyperef p.typ tmap with
    | .error err => .error err
    | .ok expectedArg =>
      match alookup bound p.name with
      | none => .error ("internal error: param '" ++ p.name ++ "' not bound")
      | some be =>
        match typeExpr fuel syms env (some expectedArg) be with
        | .error err => .error err
        | .ok _ => checkCallArgs fuel syms env bound tmap ps

/-- Embeds `type_call`: unknown callee, argument binding, the
expected-type step for the return type variable, inference of type
variables from arguments, `require` checks, argument re-checks, and the
resolved return type. -/
def typeCall : Nat → TSymbols → List (String × String) → Option String →
    String → Args → String → Except String String
  | 0, _, _, _, _, _, _ => .error "out of fuel"
  | fuel + 1, syms, env, expected, callee, args, style =>
    match alookup syms.funcs callee with
    | none => .error ("unknown function '" ++ callee ++ "'")
    | some func =>
      match bindArgs callee func args style with
      | .error err => .error err
      | .ok bound =>
        let step1 : Except String (List (String × String)) :=
          match expected with
          | some exp =>
            if isTypevar func.ret.name then .ok [(func.ret.name, exp)]
            else if func.ret.name ≠ exp then
              .error ("type mismatch in call to " ++ func.name ++ ": expected " ++
                exp ++ ", got " ++ func.ret.name)
            else .ok []
          | none =>
            if isTypevar func.ret.name then
              .error ("cannot determine type variable '" ++ func.ret.name ++
                "' in call to " ++ func.name ++ " (no expected type)")
            else .ok []
        match step1 with
        | .error err => .error err
        | .ok tmap0 =>
          match inferTVars fuel syms env bound func.params tmap0 with
          | .error err => .error err
          | .ok tmap =>
            match checkRequires syms tmap func.name func.requires with
            | .error err => .error err
            | .ok _ =>
              match checkCallArgs fuel syms env bound tmap func.params with
              | .error err => .error err
              | .ok _ =>
                if isTypevar func.ret.name then
                  match alookup tmap func.ret.name with
                  | some t => .ok t
                  | none => .error "KeyError"
                else .ok func.ret.name

end

/-- Embeds the statement loop of `typecheck_program`: a `VarDecl` is
checked against its annotation and bound; an `ExprStmt` is inferred with
no expected type and must be `Unit` (the error message preserves the
source's wording); all other item kinds are skipped. -/
def typecheckItems (fuel : Nat) (syms : TSymbols) :
    List (String × String) → List Item → Except String (List (String × String))
  | env, [] => .ok env
  | env, .varDecl _ t n e :: rest =>
    match typeExpr fuel syms env (some t.name) e with
    | .error err => .error err
    | .ok ty => typecheckItems fuel syms (env ++ [(n, ty)]) rest
  | env, .exprStmt e :: rest =>
    match typeExpr fuel syms env none e with
    | .error err => .error err
    | .ok t =>
      if t ≠ "Unit" then
        .error ("only Unit expression are allowed as statements, got '" ++ t)
      else typecheckItems fuel syms env rest
  | env, _ :: rest => typecheckItems fuel syms env rest

/-- C6 fixture: one callable `noop() -> Unit`. -/
def c6Syms : TSymbols :=
  ⟨[], [], [("noop", ⟨"noop", [], ⟨"Unit"⟩, []⟩)]⟩

/-! ## Catalog loader, sig entries (`ginger/core/catalog_loader.py`) -/

inductive Json where
  | null
  | str (s : String)
  | num (n : Int)
  | jbool (b : Bool)
  | arr (items : List Json)
  | obj (fields : List (String × Json))

/-- Python `dict.get(key)`: `None` for a missing key. -/
def jget (fields : List (String × Json)) (key : String) : Option Json :=
  alookup fields key

/-- Embeds `_type_ref`: a plain string or an object with a string `ref`;
anything else (the Python `None` of a missing key included) is a
`ValueError`. -/
def typeRefOfJson : Option Json → Except String TypeRef
  | some (.str s) => .ok ⟨s⟩
  | some (.obj fields) =>
    match jget fields "ref" with
    | some (.str s) => .ok ⟨s⟩
    | _ => .error "Invalid type ref"
  | _ => .error "Invalid type ref"

/-- Embeds `_require` (only `kind = "guarantees"` is understood). -/
def requireOfJson : Json → Except String RequireClause
  | .obj fields =>
    match jget fields "kind" with
    | some (.str "guarantees") =>
      match jget fields "type_var", jget fields "guarantee" with
      | some (.str tv), some (.str g) => .ok (.requireGuarantees tv g)
      | _, _ => .error "Invalid guarantees require"
    | _ => .error "Unknown require.kind"
  | _ => .error "Invalid require"

/-- A list-valued field with default `[]` (`s.get(key, [])` then
iteration; a non-list value would be a Python `TypeError`). -/
def jlist (fields : List (String × Json)) (key : String) :
    Except String (List Json) :=
  match jget fields key with
  | none => .ok []
  | some (.arr xs) => .ok xs
  | some _ => .error "TypeError: not iterable"

def mapME {α : Type} (f : Json → Except String α) :
    List Json → Except String (List α)
  | [] => .ok []
  | x :: xs =>
    match f x with
    | .error err => .error err
    | .ok a =>
      match mapME f xs with
      | .error err => .error err
      | .ok rest => .ok (a :: rest)

/-- Sig declaration as assembled by the loader (`failures` and `attrs` are
taken from the JSON unvalidated; `builtin` is `None` or a string). -/
structure LSigDecl where
  name : String
  params : List TypeRef
  ret : TypeRef
  requires : List RequireClause
  failures : Json
  attrs : Json
  builtin : Option String

/-- Embeds one iteration of the `sigs` loop of `load_core_catalog_json`.
`builtin := s.get("builtin")` yields Python `None` both for a missing key
and for an explicit JSON `null`, so the subsequent
`if builtin is not None and not isinstance(builtin, str)` check accepts
the missing-key case exactly like the explicit-null case; only a present,
non-null, non-string value trips the `ValueError` (whose message talks
about a *missing* `builtin`). -/
def loadSigEntry : Json → Except String LSigDecl
  | .obj s =>
    match jget s "name" with
    | some (.str sname) =>
      match jlist s "params" with
      | .error err => .error err
      | .ok paramsJ =>
        match mapME (fun x => typeRefOfJson (some x)) paramsJ with
        | .error err => .error err
        | .ok params =>
          match typeRefOfJson (jget s "ret") with
          | .error err => .error err
          | .ok ret =>
            match jlist s "requires" with
            | .error err => .error err
            | .ok requiresJ =>
              match mapME requireOfJson requiresJ with
              | .error err => .error err
              | .ok requires =>
                let failures := (jget s "failures").getD (.arr [])
                let attrs := (jget s "attrs").getD (.arr [])
                match jget s "builtin" with
                | none => .ok ⟨sname, params, ret, requires, failures, attrs, none⟩
                | some .null => .ok ⟨sname, params, ret, requires, failures, attrs, none⟩
                | some (.str b) => .ok ⟨sname, params, ret, requires, failures, attrs, some b⟩
                | some _ =>
                  .error ("Sig '" ++ sname ++ "' is missing 'builtin': " ++
                    "use null to indicate 'intentionally nobuiltin'")
    | _ => .error "Sig.name must be str"
  | _ => .error "Invalid sig"

/-! ## Diagnostics (`ginger/diagnostics.py`) and the statement-level
effect policy -/

structure Diagnostic where
  level : String
  code : String
  message : String
  pos : Option Int
deriving DecidableEq, Repr

/-- Embeds `Diagnostics.warn`: append a warning record to the sink. -/
def warnDiag (items : List Diagnostic) (code msg : String) : List Diagnostic :=
  items ++ [⟨"warning", code, msg, none⟩]

/-- A `FailureSet`, membership-equivalently as a list (the source uses
`frozenset`; `union_failures`/`remove_failure` are the only operations). -/
abbrev FailureSet : Type := List FailureId

/-- Embeds `remove_failure` (set difference by one element), applied here
by catch name (a catch removes the FailureId whose value is its
`failure_name`). -/
def removeByName (s : FailureSet) (name : String) : FailureSet :=
  s.filter fun f => f.value ≠ name

/-- Symbol information consumed by the effect policy: per-sig declared
failure sets and attribute sets (`sig_failures` / `sig_attrs` of
`symbols_builder.Symbols`). -/
structure EffSyms where
  sigFailures : List (String × FailureSet)
  sigAttrs : List (String × List String)
deriving Repr

mutual

/-- Modelled from the spec: per-expression effect.  Literals and
identifiers contribute the empty set; a call contributes the callee sig's
declared failures (suppressed when the sig carries the `handled`
attribute) unioned with each argument's set.  (A `BinaryExpr` does not
survive lowering; it is given its operands' union.)  The corresponding
two-argument `typecheck_program` called by `pipeline.compile` is absent
from the source snapshot. -/
def effectOfExpr (syms : EffSyms) : Expr → FailureSet
  | .identExpr _ => []
  | .intLit _ => []
  | .floatLit _ => []
  | .binaryExpr _ l r => effectOfExpr syms l ++ effectOfExpr syms r
  | .callExpr c args _ =>
    let own := (alookup syms.sigFailures c).getD []
    let own := if "handled" ∈ (alookup syms.sigAttrs c).getD [] then [] else own
    own ++ effectOfArgs syms args

def effectOfArgs (syms : EffSyms) : Args → FailureSet
  | .nil => []
  | .posArg e rest => effectOfExpr syms e ++ effectOfArgs syms rest
  | .namedArg _ e rest => effectOfExpr syms e ++ effectOfArgs syms rest

end

/-- Warning message for an unhandled failure set. -/
def unhandledMsg (s : FailureSet) : String :=
  String.intercalate ", " (s.map (·.value))

/-- The expression of a plain (non-try, non-catch) statement. -/
def stmtExpr : Item → Option Expr
  | .varDecl _ _ _ e => some e
  | .assignStmt _ e => some e
  | .exprStmt e => some e
  | _ => none

/-- Modelled from the spec: the statement-level effect policy of the
two-argument `typecheck_program` (absent from the snapshot; its caller
`pipeline.compile` and its sink `Diagnostics` are present).  Every
statement's residual failure set is computed; a non-empty residual is
reported through `Diagnostics.warn` with code `UNHANDLED_FAILURES` and is
never fatal; a try/catch group removes each catch's failure name from the
try effect, unions the catches' own reduced effects, and warns on the
group's residual. -/
def effectPolicyDoc : String :=
  "statement-level effect policy, modelled from the spec"

mutual

def effectCheckItems (syms : EffSyms) (diags : List Diagnostic) :
    List Item → List Diagnostic
  | [] => diags
  | .tryStmt e :: rest =>
    let catches := takeCatches rest
    let eTry := catches.foldl (fun s c => removeByName s c.1) (effectOfExpr syms e)
    let eCatch := catches.foldl
      (fun s c => s ++ removeByName (effectOfExpr syms c.2) c.1) []
    let residual := eTry ++ eCatch
    let diags' :=
      if residual ≠ [] then warnDiag diags "UNHANDLED_FAILURES" (unhandledMsg residual)
      else diags
    effectSkipCatches syms diags' rest
  | it :: rest =>
    match stmtExpr it with
    | some e =>
      let residual := effectOfExpr syms e
      let diags' :=
        if residual ≠ [] then warnDiag diags "UNHANDLED_FAILURES" (unhandledMsg residual)
        else diags
      effectCheckItems syms diags' rest
    | none => effectCheckItems syms diags rest
termination_by l => (l.length, 0)

/-- Skips the catch run of a group (the statements it already accounted
for) and resumes the walk. -/
def effectSkipCatches (syms : EffSyms) (diags : List Diagnostic) :
    List Item → List Diagnostic
  | .catchStmt _ _ :: rest => effectSkipCatches syms diags rest
  | l => effectCheckItems syms diags l
termination_by l => (l.length, 1)

end

/-- Modelled from the spec and `pipeline.py`: `compile` runs the checker
for its warnings and returns the program regardless of them. -/
def compileEffects (syms : EffSyms) (items : List Item) :
    List Diagnostic × List Item :=
  (effectCheckItems syms [] items, items)

/-- C3 fixture: a sig `boom` declaring `PrintErr`. -/
def c3Syms : EffSyms :=
  ⟨[("boom", [.printErr])], []⟩

/-! ## Tokenizer (`ginger/tokenizer.py`)

Characters are classified with the ASCII versions of Python's
`isspace`/`isdigit`/`isalpha`/`isalnum` (all sources are ASCII). -/

structure Token where
  kind : String
  text : String
  pos : Nat
deriving DecidableEq, Repr

def KEYWORDS : List String :=
  ["guarantee", "typegroup", "register", "impl", "func", "sig", "require",
   "failure", "return", "guarantees", "in", "builtin", "try", "catch",
   "let", "var"]

def SYMBOLS1 : List Char :=
  ['{', '}', '(', ')', ':', ',', '=', '@', '.', '+', '-', '*', '/']

def digitsToNat (cs : List Char) : Nat :=
  cs.foldl (fun acc c => acc * 10 + (c.toNat - 48)) 0

/-- Python `float(text)` on a `FLOAT` token (`digits.digits`), as an exact
decimal rational. -/
def pyFloat (cs : List Char) : Rat :=
  let ip := cs.takeWhile (· ≠ '.')
  let fp := (cs.dropWhile (· ≠ '.')).drop 1
  (digitsToNat ip : Rat) + (digitsToNat fp : Rat) / ((10 : Rat) ^ fp.length)

def isIdentChar (c : Char) : Bool :=
  c.isAlphanum || c = '_'

def takeDigits (cs : List Char) : List Char × List Char :=
  (cs.takeWhile Char.isDigit, cs.dropWhile Char.isDigit)

def takeIdent (cs : List Char) : List Char × List Char :=
  (cs.takeWhile isIdentChar, cs.dropWhile isIdentChar)

/-- The characters of a line comment (`//` to end of line, newline kept). -/
def takeLine (cs : List Char) : List Char × List Char :=
  (cs.takeWhile (· ≠ '\n'), cs.dropWhile (· ≠ '\n'))

def strOf (cs : List Char) : String :=
  String.mk cs

/-- Embeds the scanning loop of `tokenize` (without the final `EOF`
token, appended by `tokenize` itself).  Fuel only bounds the loop; every
iteration consumes at least one character. -/
def tokenizeAux : Nat → List Char → Nat → Except String (List Token)
  | 0, _, _ => .error "tokenizer out of fuel"
  | _ + 1, [], _ => .ok []
  | fuel + 1, c :: rest, i =>
    if c = '\n' then
      match tokenizeAux fuel rest (i + 1) with
      | .error e => .error e
      | .ok ts => .ok (⟨"NEWLINE", "\\n", i⟩ :: ts)
    else if c.isWhitespace then tokenizeAux fuel rest (i + 1)
    else if c = '/' ∧ rest.head? = some '/' then
      let dropped := takeLine rest
      tokenizeAux fuel dropped.2 (i + 1 + dropped.1.length)
    else if c = '-' ∧ rest.head? = some '>' then
      match tokenizeAux fuel (rest.drop 1) (i + 2) with
      | .error e => .error e
      | .ok ts => .ok (⟨"SYM", "->", i⟩ :: ts)
    else if c = '|' then
      match tokenizeAux fuel rest (i + 1) with
      | .error e => .error e
      | .ok ts => .ok (⟨"SYM", "|", i⟩ :: ts)
    else if c ∈ SYMBOLS1 then
      match tokenizeAux fuel rest (i + 1) with
      | .error e => .error e
      | .ok ts => .ok (⟨"SYM", String.singleton c, i⟩ :: ts)
    else if c.isDigit then
      let d := takeDigits (c :: rest)
      match d.2 with
      | '.' :: afterDot =>
        match afterDot.head? with
        | some c2 =>
          if c2.isDigit then
            let d2 := takeDigits afterDot
            let text := d.1 ++ ['.'] ++ d2.1
            match tokenizeAux fuel d2.2 (i + text.length) with
            | .error e => .error e
            | .ok ts => .ok (⟨"FLOAT", strOf text, i⟩ :: ts)
          else .error ("Float literal requires digits after '.' at " ++ toString i)
        | none => .error ("Float literal requires digits after '.' at " ++ toString i)
      | _ =>
        match tokenizeAux fuel d.2 (i + d.1.length) with
        | .error e => .error e
        | .ok ts => .ok (⟨"INT", strOf d.1, i⟩ :: ts)
    else if c.isAlpha ∨ c = '_' then
      let d := takeIdent (c :: rest)
      let text := strOf d.1
      let kind := if text ∈ KEYWORDS then "KW" else "IDENT"
      match tokenizeAux fuel d.2 (i + d.1.length) with
      | .error e => .error e
      | .ok ts => .ok (⟨kind, text, i⟩ :: ts)
    else .error ("Unexpected character at " ++ toString i)

/-- Embeds `tokenize`: the scan plus the trailing `EOF` token. -/
def tokenize (src : String) : Except String (List Token) :=
  match tokenizeAux (src.length + 1) src.toList 0 with
  | .error e => .error e
  | .ok ts => .ok (ts ++ [⟨"EOF", "", src.length⟩])

/-! ## Parser (`ginger/parser.py`)

The `Parser` object is embedded as functions over the fixed token list and
the running index `self.i`; every fallible method returns
`Except SyntaxError (result, new index)`.  The parser constructs `SigDecl`
with `failures`/`builtin` fields, so sig items use their own record shape
here. -/

/-- Sig declaration exactly as `parse_sig` constructs it. -/
structure PSigDecl where
  name : String
  params : List TypeRef
  ret : TypeRef
  requires : List RequireClause
  failures : List String
  attrs : List String
  builtin : Option String
deriving DecidableEq, Repr

/-- Function-body statement as produced by `parse_block`. -/
inductive PStmt where
  | returnStmt (e : Expr)
  | exprStmt (e : Expr)
deriving DecidableEq, Repr

/-- Top-level item as produced by `parse_toplevel`. -/
inductive PItem where
  | guaranteeDecl (d : GuaranteeDecl)
  | typeGroupDecl (d : TypeGroupDecl)
  | registerDecl (d : RegisterDecl)
  | implDecl (d : ImplDecl)
  | sigDecl (d : PSigDecl)
  | funcDecl (name : String) (params : List GParam) (body : List PStmt)
      (attrs : List String)
  | varDecl (mutable : Bool) (typ : TypeRef) (name : String) (expr : Expr)
  | assignStmt (name : String) (expr : Expr)
  | exprStmt (expr : Expr)
  | tryStmt (expr : Expr)
  | catchStmt (failureName : String) (expr : Expr)
deriving DecidableEq, Repr

/-- `self.toks[self.i]`; past the end this yields the `EOF` sentinel the
token list always ends with (the Python indexing never goes past it). -/
def tokAt (toks : List Token) (i : Nat) : Token :=
  toks.getD i ⟨"EOF", "", 0⟩

/-- `self.match(kind)`. -/
def tmatch (toks : List Token) (i : Nat) (kind : String) : Bool :=
  (tokAt toks i).kind = kind

/-- `self.match(kind, text)`. -/
def tmatchT (toks : List Token) (i : Nat) (kind text : String) : Bool :=
  (tokAt toks i).kind = kind && (tokAt toks i).text = text

/-- `self.eat(kind)` / `self.eat(kind, text)`. -/
def eat (toks : List Token) (i : Nat) (kind : String) (text : Option String) :
    Except String (Token × Nat) :=
  let t := tokAt toks i
  let okK : Bool := t.kind == kind
  let okT : Bool := match text with
    | some s => t.text == s
    | none => true
  if okK && okT then .ok (t, i + 1)
  else .error ("Expected " ++ kind ++ " but got " ++ t.kind ++ "('" ++ t.text ++
    "') at " ++ toString t.pos)

/-- `self.skip_newlines()`. -/
def skipNL : Nat → List Token → Nat → Nat
  | 0, _, i => i
  | fuel + 1, toks, i =>
    if tmatch toks i "NEWLINE" then skipNL fuel toks (i + 1) else i

/-- The `_PRECEDENCE` table. -/
def precOf : String → Option Nat
  | "+" => some 10
  | "-" => some 10
  | "*" => some 20
  | "/" => some 20
  | _ => none

/-- `self._is_op()` at an index. -/
def isOpAt (toks : List Token) (i : Nat) : Bool :=
  tmatch toks i "SYM" && (precOf (tokAt toks i).text).isSome

/-- Embeds `parse_attrs` (the `@attr.<name>` prefix loop). -/
def parseAttrs : Nat → List Token → Nat → Except String (List String × Nat)
  | 0, _, _ => .error "parser out of fuel"
  | fuel + 1, toks, i =>
    if tmatchT toks i "SYM" "@" then
      let i1 := i + 1
      match eat toks i1 "IDENT" none with
      | .error e => .error e
      | .ok (ns, i2) =>
        if ns.text ≠ "attr" then
          .error ("unknown attribute namespace '@" ++ ns.text ++ "'")
        else if ¬ tmatchT toks i2 "SYM" "." then
          .error "expected '.' after '@attr'"
        else
          let i3 := i2 + 1
          if ¬ tmatch toks i3 "IDENT" then
            .error "expected attribute name after '@attr.'"
          else
            let aname := (tokAt toks i3).text
            let i4 := skipNL (fuel + 1) toks (i3 + 1)
            match parseAttrs fuel toks i4 with
            | .error e => .error e
            | .ok (rest, j) => .ok (aname :: rest, j)
    else .ok ([], i)

/-- Embeds `parse_dotted_name`. -/
def parseDottedTail : Nat → List Token → Nat → String →
    Except String (String × Nat)
  | 0, _, _, _ => .error "parser out of fuel"
  | fuel + 1, toks, i, acc =>
    if tmatchT toks i "SYM" "." then
      match eat toks (i + 1) "IDENT" none with
      | .error e => .error e
      | .ok (t, j) => parseDottedTail fuel toks j (acc ++ "." ++ t.text)
    else .ok (acc, i)

def parseDottedName (fuel : Nat) (toks : List Token) (i : Nat) :
    Except String (String × Nat) :=
  match eat toks i "IDENT" none with
  | .error e => .error e
  | .ok (t, j) => parseDottedTail fuel toks j t.text

/-- Embeds `parse_type`. -/
def parseType (toks : List Token) (i : Nat) : Except String (TypeRef × Nat) :=
  match eat toks i "IDENT" none with
  | .error e => .error e
  | .ok (t, j) => .ok (⟨t.text⟩, j)

/-- Embeds the loop of `parse_params` (`name ':' type` separated by commas). -/
def parseParamsLoop : Nat → List Token → Nat →
    Except String (List GParam × Nat)
  | 0, _, _ => .error "parser out of fuel"
  | fuel + 1, toks, i =>
    match eat toks i "IDENT" none with
    | .error e => .error e
    | .ok (pn, i1) =>
      match eat toks i1 "SYM" (some ":") with
      | .error e => .error e
      | .ok (_, i2) =>
        match parseType toks i2 with
        | .error e => .error e
        | .ok (ty, i3) =>
          if tmatchT toks i3 "SYM" "," then
            match parseParamsLoop fuel toks (i3 + 1) with
            | .error e => .error e
            | .ok (rest, j) => .ok (⟨pn.text, ty⟩ :: rest, j)
          else .ok ([⟨pn.text, ty⟩], i3)

def parseParams (fuel : Nat) (toks : List Token) (i : Nat) :
    Except String (List GParam × Nat) :=
  if tmatchT toks i "SYM" ")" then .ok ([], i)
  else parseParamsLoop fuel toks i

/-- Embeds the loop of `parse_sig_param_types`. -/
def parseSigParamTypesLoop : Nat → List Token → Nat →
    Except String (List TypeRef × Nat)
  | 0, _, _ => .error "parser out of fuel"
  | fuel + 1, toks, i =>
    match parseType toks i with
    | .error e => .error e
    | .ok (ty, i1) =>
      if tmatchT toks i1 "SYM" "," then
        match parseSigParamTypesLoop fuel toks (i1 + 1) with
        | .error e => .error e
        | .ok (rest, j) => .ok (ty :: rest, j)
      else .ok ([ty], i1)

def parseSigParamTypes (fuel : Nat) (toks : List Token) (i : Nat) :
    Except String (List TypeRef × Nat) :=
  if tmatchT toks i "SYM" ")" then .ok ([], i)
  else parseSigParamTypesLoop fuel toks i

/-- Embeds `parse_method_sig`. -/
def parseMethodSig (fuel : Nat) (toks : List Token) (i : Nat) :
    Except String (FuncSig × Nat) :=
  match eat toks i "IDENT" none with
  | .error e => .error e
  | .ok (fn, i1) =>
    match eat toks i1 "SYM" (some "(") with
    | .error e => .error e
    | .ok (_, i2) =>
      match parseParams fuel toks i2 with
      | .error e => .error e
      | .ok (params, i3) =>
        match eat toks i3 "SYM" (some ")") with
        | .error e => .error e
        | .ok (_, i4) =>
          match eat toks i4 "SYM" (some "->") with
          | .error e => .error e
          | .ok (_, i5) =>
            match parseType toks i5 with
            | .error e => .error e
            | .ok (ret, i6) => .ok (⟨fn.text, params, ret⟩, i6)

/-- Embeds the method loop of `parse_guarantee`. -/
def parseGuaranteeMethods : Nat → List Token → Nat →
    Except String (List FuncSig × Nat)
  | 0, _, _ => .error "parser out of fuel"
  | fuel + 1, toks, i =>
    let i1 := skipNL (fuel + 1) toks i
    if tmatchT toks i1 "SYM" "\x7d" then .ok ([], i1)
    else
      match parseMethodSig fuel toks i1 with
      | .error e => .error e
      | .ok (m, i2) =>
        match parseGuaranteeMethods fuel toks i2 with
        | .error e => .error e
        | .ok (rest, j) => .ok (m :: rest, j)

/-- Embeds `parse_guarantee`. -/
def parseGuarantee (fuel : Nat) (toks : List Token) (i : Nat) :
    Except String (PItem × Nat) :=
  match eat toks i "KW" (some "guarantee") with
  | .error e => .error e
  | .ok (_, i1) =>
    match eat toks i1 "IDENT" none with
    | .error e => .error e
    | .ok (nm, i2) =>
      match eat toks i2 "SYM" (some "\x7b") with
      | .error e => .error e
      | .ok (_, i3) =>
        match parseGuaranteeMethods fuel toks i3 with
        | .error e => .error e
        | .ok (methods, i4) =>
          match eat toks i4 "SYM" (some "\x7d") with
          | .error e => .error e
          | .ok (_, i5) => .ok (.guaranteeDecl ⟨nm.text, methods⟩, i5)

/-- Embeds the member loop of `parse_typegroup`. -/
def parseTypegroupMembers : Nat → List Token → Nat →
    Except String (List TypeRef × Nat)
  | 0, _, _ => .error "parser out of fuel"
  | fuel + 1, toks, i =>
    if tmatchT toks i "SYM" "|" then
      match parseType toks (i + 1) with
      | .error e => .error e
      | .ok (ty, i1) =>
        match parseTypegroupMembers fuel toks i1 with
        | .error e => .error e
        | .ok (rest, j) => .ok (ty :: rest, j)
    else .ok ([], i)

/-- Embeds `parse_typegroup`. -/
def parseTypegroup (fuel : Nat) (toks : List Token) (i : Nat) :
    Except String (PItem × Nat) :=
  match eat toks i "KW" (some "typegroup") with
  | .error e => .error e
  | .ok (_, i1) =>
    match eat toks i1 "IDENT" none with
    | .error e => .error e
    | .ok (nm, i2) =>
      match eat toks i2 "SYM" (some "=") with
      | .error e => .error e
      | .ok (_, i3) =>
        match parseType toks i3 with
        | .error e => .error e
        | .ok (first, i4) =>
          match parseTypegroupMembers fuel toks i4 with
          | .error e => .error e
          | .ok (rest, j) => .ok (.typeGroupDecl ⟨nm.text, first :: rest⟩, j)

/-- Embeds `parse_register`. -/
def parseRegister (toks : List Token) (i : Nat) : Except String (PItem × Nat) :=
  match eat toks i "KW" (some "register") with
  | .error e => .error e
  | .ok (_, i1) =>
    match parseType toks i1 with
    | .error e => .error e
    | .ok (ty, i2) =>
      match eat toks i2 "KW" (some "guarantees") with
      | .error e => .error e
      | .ok (_, i3) =>
        match eat toks i3 "IDENT" none with
        | .error e => .error e
        | .ok (g, i4) => .ok (.registerDecl ⟨ty, g.text⟩, i4)

/-- Embeds the method loop of `parse_impl`. -/
def parseImplMethods : Nat → List Token → Nat →
    Except String (List ImplMethod × Nat)
  | 0, _, _ => .error "parser out of fuel"
  | fuel + 1, toks, i =>
    let i1 := skipNL (fuel + 1) toks i
    if tmatchT toks i1 "SYM" "\x7d" then .ok ([], i1)
    else
      match eat toks i1 "IDENT" none with
      | .error e => .error e
      | .ok (mn, i2) =>
        match eat toks i2 "SYM" (some "=") with
        | .error e => .error e
        | .ok (_, i3) =>
          match eat toks i3 "KW" (some "builtin") with
          | .error e => .error e
          | .ok (_, i4) =>
            match parseDottedName fuel toks i4 with
            | .error e => .error e
            | .ok (bn, i5) =>
              match parseImplMethods fuel toks i5 with
              | .error e => .error e
              | .ok (rest, j) => .ok (⟨mn.text, bn⟩ :: rest, j)

/-- Embeds `parse_impl`. -/
def parseImpl (fuel : Nat) (toks : List Token) (i : Nat) :
    Except String (PItem × Nat) :=
  match eat toks i "KW" (some "impl") with
  | .error e => .error e
  | .ok (_, i1) =>
    match parseType toks i1 with
    | .error e => .error e
    | .ok (ty, i2) =>
      match eat toks i2 "KW" (some "guarantees") with
      | .error e => .error e
      | .ok (_, i3) =>
        match eat toks i3 "IDENT" none with
        | .error e => .error e
        | .ok (g, i4) =>
          match eat toks i4 "SYM" (some "\x7b") with
          | .error e => .error e
          | .ok (_, i5) =>
            match parseImplMethods fuel toks i5 with
            | .error e => .error e
            | .ok (methods, i6) =>
              match eat toks i6 "SYM" (some "\x7d") with
              | .error e => .error e
              | .ok (_, i7) => .ok (.implDecl ⟨ty, g.text, methods⟩, i7)

/-- Embeds `parse_require_clause`. -/
def parseRequireClause (toks : List Token) (i : Nat) :
    Except String (RequireClause × Nat) :=
  match eat toks i "KW" (some "require") with
  | .error e => .error e
  | .ok (_, i1) =>
    match eat toks i1 "IDENT" none with
    | .error e => .error e
    | .ok (tv, i2) =>
      if tmatchT toks i2 "KW" "in" then
        match eat toks (i2 + 1) "IDENT" none with
        | .error e => .error e
        | .ok (g, i3) => .ok (.requireIn tv.text g.text, i3)
      else if tmatchT toks i2 "KW" "guarantees" then
        match eat toks (i2 + 1) "IDENT" none with
        | .error e => .error e
        | .ok (g, i3) => .ok (.requireGuarantees tv.text g.text, i3)
      else .error "Expected 'in' or 'guarantees' after require"

/-- Embeds the body loop of `parse_sig` (`require`/`failure`/`builtin`
entries; `Never` alone means no failures, duplicates are rejected). -/
def parseSigBody : Nat → List Token → Nat → List RequireClause →
    List String → Option String →
    Except String ((List RequireClause × List String × Option String) × Nat)
  | 0, _, _, _, _, _ => .error "parser out of fuel"
  | fuel + 1, toks, i, requires, failures, bi =>
    let i1 := skipNL (fuel + 1) toks i
    if tmatchT toks i1 "SYM" "\x7d" then .ok ((requires, failures, bi), i1)
    else if tmatchT toks i1 "KW" "require" then
      match parseRequireClause toks i1 with
      | .error e => .error e
      | .ok (r, i2) => parseSigBody fuel toks i2 (requires ++ [r]) failures bi
    else if tmatchT toks i1 "KW" "failure" then
      match parseType toks (i1 + 1) with
      | .error e => .error e
      | .ok (f, i2) =>
        if f.name = "Never" then
          if failures ≠ [] then .error "cannot combine 'Never' with other failures"
          else parseSigBody fuel toks i2 requires failures bi
        else if f.name ∈ failures then .error ("duplicate failure '" ++ f.name ++ "'")
        else parseSigBody fuel toks i2 requires (failures ++ [f.name]) bi
    else if tmatchT toks i1 "KW" "builtin" then
      if bi.isSome then .error "duplicate builtin"
      else
        match parseDottedName fuel toks (i1 + 1) with
        | .error e => .error e
        | .ok (bn, i2) => parseSigBody fuel toks i2 requires failures (some bn)
    else .error ("Unexpected token in sig body at " ++ toString (tokAt toks i1).pos)

/-- Embeds `parse_sig`. -/
def parseSig (fuel : Nat) (toks : List Token) (i : Nat) (attrs : List String) :
    Except String (PItem × Nat) :=
  match eat toks i "KW" (some "sig") with
  | .error e => .error e
  | .ok (_, i1) =>
    match eat toks i1 "IDENT" none with
    | .error e => .error e
    | .ok (nm, i2) =>
      match eat toks i2 "SYM" (some "(") with
      | .error e => .error e
      | .ok (_, i3) =>
        match parseSigParamTypes fuel toks i3 with
        | .error e => .error e
        | .ok (params, i4) =>
          match eat toks i4 "SYM" (some ")") with
          | .error e => .error e
          | .ok (_, i5) =>
            match eat toks i5 "SYM" (some "->") with
            | .error e => .error e
            | .ok (_, i6) =>
              match parseType toks i6 with
              | .error e => .error e
              | .ok (ret, i7) =>
                match eat toks i7 "SYM" (some "\x7b") with
                | .error e => .error e
                | .ok (_, i8) =>
                  match parseSigBody fuel toks i8 [] [] none with
                  | .error e => .error e
                  | .ok ((requires, failures, bi), i9) =>
                    match eat toks i9 "SYM" (some "\x7d") with
                    | .error e => .error e
                    | .ok (_, i10) =>
                      .ok (.sigDecl ⟨nm.text, params, ret, requires, failures,
                        attrs, bi⟩, i10)

mutual

/-- Embeds `parse_expr`: an expression is either a parenthesised infix
group or a single operand; an infix operator right after an operand (that
is, outside parentheses) is a `SyntaxError`. -/
def parseExpr : Nat → List Token → Nat → Except String (Expr × Nat)
  | 0, _, _ => .error "parser out of fuel"
  | fuel + 1, toks, i =>
    if tmatchT toks i "SYM" "(" then parseParenGroup fuel toks i
    else
      match parseOperand fuel toks i with
      | .error e => .error e
      | .ok (e, j) =>
        if isOpAt toks j then
          .error ("infix operator '" ++ (tokAt toks j).text ++
            "' is only allowed inside '(...)' at " ++ toString (tokAt toks j).pos)
        else .ok (e, j)
termination_by structural fuel _ _ => fuel

/-- Embeds `parse_paren_infix_expr`: a parenthesised group must contain at
least one operator at its own level (`saw_op`), else `(operand)` is a
`SyntaxError`. -/
def parseParenGroup : Nat → List Token → Nat → Except String (Expr × Nat)
  | 0, _, _ => .error "parser out of fuel"
  | fuel + 1, toks, i =>
    match eat toks i "SYM" (some "(") with
    | .error e => .error e
    | .ok (lpar, i1) =>
      match parseOpChain fuel toks i1 0 with
      | .error e => .error e
      | .ok (e, sawOp, j) =>
        match eat toks j "SYM" (some ")") with
        | .error err => .error err
        | .ok (_, j1) =>
          if !sawOp then
            .error ("parentheses are only for infix expressions; " ++
              "remove '(...)' or write an operator inside at " ++ toString lpar.pos)
          else .ok (e, j1)
termination_by structural fuel _ _ => fuel

/-- Embeds `parse_infix` (operand then the operator loop; the returned
flag reports whether an operator was consumed at this level). -/
def parseOpChain : Nat → List Token → Nat → Nat → Except String (Expr × Bool × Nat)
  | 0, _, _, _ => .error "parser out of fuel"
  | fuel + 1, toks, i, minPrec =>
    match parseOperand fuel toks i with
    | .error e => .error e
    | .ok (left, j) => opLoop fuel toks left false j minPrec
termination_by structural fuel _ _ _ => fuel

/-- Embeds the `while self._is_op()` loop of `parse_infix`
(`saw_op = (True or saw_op) or right_saw` after every consumed operator). -/
def opLoop : Nat → List Token → Expr → Bool → Nat → Nat →
    Except String (Expr × Bool × Nat)
  | 0, _, _, _, _, _ => .error "parser out of fuel"
  | fuel + 1, toks, left, sawOp, i, minPrec =>
    if isOpAt toks i then
      let op := (tokAt toks i).text
      let prec := (precOf op).getD 0
      if prec < minPrec then .ok (left, sawOp, i)
      else
        match parseOpChain fuel toks (i + 1) (prec + 1) with
        | .error e => .error e
        | .ok (right, rightSaw, j) =>
          opLoop fuel toks (.binaryExpr op left right) ((true || sawOp) || rightSaw)
            j minPrec
    else .ok (left, sawOp, i)
termination_by structural fuel _ _ _ _ _ => fuel

/-- Embeds `parse_operand`: unary minus is forbidden, a parenthesised
group is an operand, then identifier/call, integer and float literals. -/
def parseOperand : Nat → List Token → Nat → Except String (Expr × Nat)
  | 0, _, _ => .error "parser out of fuel"
  | fuel + 1, toks, i =>
    if tmatchT toks i "SYM" "-" then
      .error ("unary '-' is forbidden; use neg(x) at " ++ toString (tokAt toks i).pos)
    else if tmatchT toks i "SYM" "(" then parseParenGroup fuel toks i
    else if tmatch toks i "IDENT" then
      let ident := (tokAt toks i).text
      if tmatchT toks (i + 1) "SYM" "(" then
        match parseArgs fuel toks (i + 2) with
        | .error e => .error e
        | .ok (args, style, j) =>
          match eat toks j "SYM" (some ")") with
          | .error e => .error e
          | .ok (_, j1) => .ok (.callExpr ident args style, j1)
      else .ok (.identExpr ident, i + 1)
    else if tmatch toks i "INT" then
      .ok (.intLit (digitsToNat (tokAt toks i).text.toList : Int), i + 1)
    else if tmatch toks i "FLOAT" then
      .ok (.floatLit (pyFloat (tokAt toks i).text.toList), i + 1)
    else
      .error ("Unexpected token " ++ (tokAt toks i).kind ++ "('" ++
        (tokAt toks i).text ++ "') at " ++ toString (tokAt toks i).pos ++
        " in expression")
termination_by structural fuel _ _ => fuel

/-- Embeds `parse_args` (empty argument list short-circuit). -/
def parseArgs : Nat → List Token → Nat → Except String (Args × String × Nat)
  | 0, _, _ => .error "parser out of fuel"
  | fuel + 1, toks, i =>
    if tmatchT toks i "SYM" ")" then .ok (.nil, "pos", i)
    else argsLoop fuel toks i none
termination_by structural fuel _ _ => fuel

/-- Embeds the argument loop of `parse_args`: an argument is named iff it
starts `IDENT ':'`; positional and named may not be mixed. -/
def argsLoop : Nat → List Token → Nat → Option String →
    Except String (Args × String × Nat)
  | 0, _, _, _ => .error "parser out of fuel"
  | fuel + 1, toks, i, style =>
    if tmatch toks i "IDENT" && tmatchT toks (i + 1) "SYM" ":" then
      match style with
      | some "pos" => .error "Cannot mix positional and named arguments"
      | _ =>
        let name := (tokAt toks i).text
        match parseExpr fuel toks (i + 2) with
        | .error e => .error e
        | .ok (e, j) =>
          if tmatchT toks j "SYM" "," then
            match argsLoop fuel toks (j + 1) (some "named") with
            | .error err => .error err
            | .ok (rest, st, k) => .ok (.namedArg name e rest, st, k)
          else .ok (.namedArg name e .nil, "named", j)
    else
      match style with
      | some "named" => .error "Cannot mix positional and named arguments"
      | _ =>
        match parseExpr fuel toks i with
        | .error e => .error e
        | .ok (e, j) =>
          if tmatchT toks j "SYM" "," then
            match argsLoop fuel toks (j + 1) (some "pos") with
            | .error err => .error err
            | .ok (rest, st, k) => .ok (.posArg e rest, st, k)
          else .ok (.posArg e .nil, "pos", j)
termination_by structural fuel _ _ _ => fuel

end

/-- Embeds the statement loop of `parse_block` (only `return <expr>` and
expression statements). -/
def parseBlockLoop : Nat → List Token → Nat → Except String (List PStmt × Nat)
  | 0, _, _ => .error "parser out of fuel"
  | fuel + 1, toks, i =>
    let i1 := skipNL (fuel + 1) toks i
    if tmatchT toks i1 "SYM" "\x7d" then .ok ([], i1)
    else if tmatchT toks i1 "KW" "return" then
      match parseExpr fuel toks (i1 + 1) with
      | .error e => .error e
      | .ok (e, i2) =>
        match parseBlockLoop fuel toks i2 with
        | .error err => .error err
        | .ok (rest, j) => .ok (.returnStmt e :: rest, j)
    else
      match parseExpr fuel toks i1 with
      | .error e => .error e
      | .ok (e, i2) =>
        match parseBlockLoop fuel toks i2 with
        | .error err => .error err
        | .ok (rest, j) => .ok (.exprStmt e :: rest, j)

/-- Embeds `parse_block`. -/
def parseBlock (fuel : Nat) (toks : List Token) (i : Nat) :
    Except String (List PStmt × Nat) :=
  match eat toks i "SYM" (some "\x7b") with
  | .error e => .error e
  | .ok (_, i1) =>
    match parseBlockLoop fuel toks i1 with
    | .error e => .error e
    | .ok (stmts, i2) =>
      match eat toks i2 "SYM" (some "\x7d") with
      | .error e => .error e
      | .ok (_, i3) => .ok (stmts, i3)

/-- Embeds `parse_func`. -/
def parseFunc (fuel : Nat) (toks : List Token) (i : Nat) (attrs : List String) :
    Except String (PItem × Nat) :=
  match eat toks i "KW" (some "func") with
  | .error e => .error e
  | .ok (_, i1) =>
    match eat toks i1 "IDENT" none with
    | .error e => .error e
    | .ok (nm, i2) =>
      match eat toks i2 "SYM" (some "(") with
      | .error e => .error e
      | .ok (_, i3) =>
        match parseParams fuel toks i3 with
        | .error e => .error e
        | .ok (params, i4) =>
          match eat toks i4 "SYM" (some ")") with
          | .error e => .error e
          | .ok (_, i5) =>
            let i6 := skipNL (fuel + 1) toks i5
            match parseBlock fuel toks i6 with
            | .error e => .error e
            | .ok (body, i7) => .ok (.funcDecl nm.text params body attrs, i7)

/-- Embeds `parse_let_var_decl`. -/
def parseLetVarDecl (fuel : Nat) (toks : List Token) (i : Nat) (mutable : Bool) :
    Except String (PItem × Nat) :=
  match eat toks i "KW" (some (if mutable then "var" else "let")) with
  | .error e => .error e
  | .ok (_, i1) =>
    match eat toks i1 "IDENT" none with
    | .error e => .error e
    | .ok (nm, i2) =>
      match eat toks i2 "SYM" (some ":") with
      | .error e => .error e
      | .ok (_, i3) =>
        match parseType toks i3 with
        | .error e => .error e
        | .ok (ty, i4) =>
          match eat toks i4 "SYM" (some "=") with
          | .error e => .error e
          | .ok (_, i5) =>
            match parseExpr fuel toks i5 with
            | .error e => .error e
            | .ok (e, i6) => .ok (.varDecl mutable ty nm.text e, i6)

/-- Embeds `parse_assign_stmt`. -/
def parseAssignStmt (fuel : Nat) (toks : List Token) (i : Nat) :
    Except String (PItem × Nat) :=
  match eat toks i "IDENT" none with
  | .error e => .error e
  | .ok (nm, i1) =>
    match eat toks i1 "SYM" (some "=") with
    | .error e => .error e
    | .ok (_, i2) =>
      match parseExpr fuel toks i2 with
      | .error e => .error e
      | .ok (e, i3) => .ok (.assignStmt nm.text e, i3)

/-- The handler-token run of a catch: every token up to (excluding) the
next `NEWLINE` or `EOF`. -/
def collectToEol : Nat → List Token → Nat → List Token × Nat
  | 0, _, i => ([], i)
  | fuel + 1, toks, i =>
    if !(tmatch toks i "NEWLINE") && !(tmatch toks i "EOF") then
      let r := collectToEol fuel toks (i + 1)
      (tokAt toks i :: r.1, r.2)
    else ([], i)

/-- Embeds the catch handler sub-parse: a fresh parser over
`handler_tokens + [EOF]` reads a single expression; the sub-parser's final
index is discarded, so tokens after the first complete expression are
silently ignored. -/
def parseCatchBody (fuel : Nat) (handlerToks : List Token) : Except String Expr :=
  let lastPos := ((handlerToks.getLast?).map (·.pos)).getD 0
  match parseExpr fuel (handlerToks ++ [⟨"EOF", "", lastPos⟩]) 0 with
  | .error e => .error e
  | .ok (e, _) => .ok e

/-- Embeds `parse_toplevel`: attribute prefix, the declaration keywords,
`let`/`var`, `try`, `catch` (handler re-parsed from the token run to end
of line, nesting forbidden), assignment, expression statement. -/
def parseToplevel : Nat → List Token → Nat → Except String (PItem × Nat)
  | 0, _, _ => .error "parser out of fuel"
  | fuel + 1, toks, i =>
    if tmatch toks i "EOF" then .ok (.exprStmt (.intLit 0), i)
    else
      match parseAttrs fuel toks i with
      | .error e => .error e
      | .ok (attrs, i1) =>
        if tmatchT toks i1 "KW" "guarantee" then parseGuarantee fuel toks i1
        else if tmatchT toks i1 "KW" "typegroup" then parseTypegroup fuel toks i1
        else if tmatchT toks i1 "KW" "register" then parseRegister toks i1
        else if tmatchT toks i1 "KW" "impl" then parseImpl fuel toks i1
        else if tmatchT toks i1 "KW" "func" then parseFunc fuel toks i1 attrs
        else if tmatchT toks i1 "KW" "sig" then parseSig fuel toks i1 attrs
        else if attrs ≠ [] then
          .error "attributes must precede a sig or func declaration"
        else if tmatchT toks i1 "KW" "let" then parseLetVarDecl fuel toks i1 false
        else if tmatchT toks i1 "KW" "var" then parseLetVarDecl fuel toks i1 true
        else if tmatchT toks i1 "KW" "try" then
          match parseExpr fuel toks (i1 + 1) with
          | .error e => .error e
          | .ok (e, j) => .ok (.tryStmt e, j)
        else if tmatchT toks i1 "KW" "catch" then
          let i2 := i1 + 1
          if ¬ tmatch toks i2 "IDENT" then .error "expected failure name after catch"
          else
            let failureName := (tokAt toks i2).text
            let col := collectToEol fuel toks (i2 + 1)
            let handlerToks := col.1
            let i4 := col.2
            let i5 := if tmatch toks i4 "NEWLINE" then i4 + 1 else i4
            match handlerToks with
            | [] => .error "catch must have a handler expression on the same line"
            | h0 :: _ =>
              if h0.kind = "KW" ∧ (h0.text = "try" ∨ h0.text = "catch") then
                .error "nested try/catch is forbidden in catch body"
              else
                match parseCatchBody fuel handlerToks with
                | .error e => .error e
                | .ok e => .ok (.catchStmt failureName e, i5)
        else if tmatch toks i1 "IDENT" && tmatchT toks (i1 + 1) "SYM" "=" then
          parseAssignStmt fuel toks i1
        else if tmatch toks i1 "IDENT" && tmatchT toks (i1 + 1) "SYM" "(" then
          match parseExpr fuel toks i1 with
          | .error e => .error e
          | .ok (e, j) => .ok (.exprStmt e, j)
        else
          .error ("Unexpected toplevel token " ++ (tokAt toks i1).kind ++ "('" ++
            (tokAt toks i1).text ++ "') at " ++ toString (tokAt toks i1).pos)

/-- Embeds the loop of `parse_program`. -/
def parseProgram : Nat → List Token → Nat → Except String (List PItem)
  | 0, _, _ => .error "parser out of fuel"
  | fuel + 1, toks, i =>
    let i1 := skipNL (fuel + 1) toks i
    if tmatch toks i1 "EOF" then .ok []
    else
      match parseToplevel fuel toks i1 with
      | .error e => .error e
      | .ok (item, j) =>
        match parseProgram fuel toks j with
        | .error e => .error e
        | .ok rest => .ok (item :: rest)

/-- Embeds `parse`: tokenize, then the program loop (the fuel is ample for
every input evaluated in this development). -/
def parse (src : String) : Except String (List PItem) :=
  match tokenize src with
  | .error e => .error e
  | .ok toks => parseProgram (src.length * 4 + 64) toks 0

def isErr {α : Type} : Except String α → Bool
  | .error _ => true
  | .ok _ => false

mutual

theorem lowerExpr_noBin : ∀ e e', lowerExpr e = .ok e' → noBinExpr e' = true
  | .identExpr _, _, h => by simp [lowerExpr] at h; subst h; rfl
  | .intLit _, _, h => by simp [lowerExpr] at h; subst h; rfl
  | .floatLit _, _, h => by simp [lowerExpr] at h; subst h; rfl
  | .binaryExpr op l r, e', h => by
    unfold lowerExpr at h
    cases hl : lowerExpr l with
    | error err => rw [hl] at h; exact absurd h (by simp)
    | ok l' =>
      rw [hl] at h
      cases hr : lowerExpr r with
      | error err => rw [hr] at h; exact absurd h (by simp)
      | ok r' =>
        rw [hr] at h
        cases hc : opToCallee op with
        | none => rw [hc] at h; exact absurd h (by simp)
        | some c =>
          rw [hc] at h
          simp at h
          subst h
          have h1 := lowerExpr_noBin l l' hl
          have h2 := lowerExpr_noBin r r' hr
          simp [noBinExpr, noBinArgs, h1, h2]
  | .callExpr c args style, e', h => by
    unfold lowerExpr at h
    cases ha : lowerArgs args with
    | error err => rw [ha] at h; exact absurd h (by simp)
    | ok args' =>
      rw [ha] at h
      simp at h
      subst h
      simpa [noBinExpr] using lowerArgs_noBin args args' ha

theorem lowerArgs_noBin : ∀ a a', lowerArgs a = .ok a' → noBinArgs a' = true
  | .nil, _, h => by simp [lowerArgs] at h; subst h; rfl
  | .posArg e rest, a', h => by
    unfold lowerArgs at h
    cases he : lowerExpr e with
    | error err => rw [he] at h; exact absurd h (by simp)
    | ok e' =>
      rw [he] at h
      cases hr : lowerArgs rest with
      | error err => rw [hr] at h; exact absurd h (by simp)
      | ok rest' =>
        rw [hr] at h
        simp at h
        subst h
        simp [noBinArgs, lowerExpr_noBin e e' he, lowerArgs_noBin rest rest' hr]
  | .namedArg n e rest, a', h => by
    unfold lowerArgs at h
    cases he : lowerExpr e with
    | error err => rw [he] at h; exact absurd h (by simp)
    | ok e' =>
      rw [he] at h
      cases hr : lowerArgs rest with
      | error err => rw [hr] at h; exact absurd h (by simp)
      | ok rest' =>
        rw [hr] at h
        simp at h
        subst h
        simp [noBinArgs, lowerExpr_noBin e e' he, lowerArgs_noBin rest rest' hr]

end

mutual

theorem lowerExpr_fixed : ∀ e, noBinExpr e = true → lowerExpr e = .ok e
  | .identExpr _, _ => rfl
  | .intLit _, _ => rfl
  | .floatLit _, _ => rfl
  | .binaryExpr _ _ _, h => by simp [noBinExpr] at h
  | .callExpr c args style, h => by
    unfold lowerExpr
    rw [lowerArgs_fixed args (by simpa [noBinExpr] using h)]

theorem lowerArgs_fixed : ∀ a, noBinArgs a = true → lowerArgs a = .ok a
  | .nil, _ => rfl
  | .posArg e rest, h => by
    have h' := h
    simp [noBinArgs] at h'
    unfold lowerArgs
    rw [lowerExpr_fixed e h'.1, lowerArgs_fixed rest h'.2]
  | .namedArg n e rest, h => by
    have h' := h
    simp [noBinArgs] at h'
    unfold lowerArgs
    rw [lowerExpr_fixed e h'.1, lowerArgs_fixed rest h'.2]

end

mutual

theorem lowerItem_noBin : ∀ it it', lowerItem it = .ok it' → noBinItem it' = true
  | .exprStmt e, it', h => by
    unfold lowerItem at h
    cases he : lowerExpr e with
    | error err => rw [he] at h; exact absurd h (by simp)
    | ok e' => rw [he] at h; simp at h; subst h; simpa [noBinItem] using lowerExpr_noBin e e' he
  | .tryStmt e, it', h => by
    unfold lowerItem at h
    cases he : lowerExpr e with
    | error err => rw [he] at h; exact absurd h (by simp)
    | ok e' => rw [he] at h; simp at h; subst h; simpa [noBinItem] using lowerExpr_noBin e e' he
  | .catchStmt fn e, it', h => by
    unfold lowerItem at h
    cases he : lowerExpr e with
    | error err => rw [he] at h; exact absurd h (by simp)
    | ok e' => rw [he] at h; simp at h; subst h; simpa [noBinItem] using lowerExpr_noBin e e' he
  | .varDecl m t n e, it', h => by
    unfold lowerItem at h
    cases he : lowerExpr e with
    | error err => rw [he] at h; exact absurd h (by simp)
    | ok e' => rw [he] at h; simp at h; subst h; simpa [noBinItem] using lowerExpr_noBin e e' he
  | .assignStmt n e, it', h => by
    unfold lowerItem at h
    cases he : lowerExpr e with
    | error err => rw [he] at h; exact absurd h (by simp)
    | ok e' => rw [he] at h; simp at h; subst h; simpa [noBinItem] using lowerExpr_noBin e e' he
  | .returnStmt e, it', h => by
    unfold lowerItem at h
    cases he : lowerExpr e with
    | error err => rw [he] at h; exact absurd h (by simp)
    | ok e' => rw [he] at h; simp at h; subst h; simpa [noBinItem] using lowerExpr_noBin e e' he
  | .funcDecl n ps b attrs, it', h => by
    unfold lowerItem at h
    cases hb : lowerBody b with
    | error err => rw [hb] at h; exact absurd h (by simp)
    | ok b' => rw [hb] at h; simp at h; subst h; simpa [noBinItem] using lowerBody_noBin b b' hb
  | .guaranteeDecl d, it', h => by simp [lowerItem] at h; subst h; rfl
  | .typeGroupDecl d, it', h => by simp [lowerItem] at h; subst h; rfl
  | .registerDecl d, it', h => by simp [lowerItem] at h; subst h; rfl
  | .implDecl d, it', h => by simp [lowerItem] at h; subst h; rfl
  | .sigDecl d, it', h => by simp [lowerItem] at h; subst h; rfl

theorem lowerBody_noBin : ∀ b b', lowerBody b = .ok b' → noBinBody b' = true
  | .nil, _, h => by simp [lowerBody] at h; subst h; rfl
  | .cons s rest, b', h => by
    unfold lowerBody at h
    cases hs : lowerItem s with
    | error err => rw [hs] at h; exact absurd h (by simp)
    | ok s' =>
      rw [hs] at h
      cases hr : lowerBody rest with
      | error err => rw [hr] at h; exact absurd h (by simp)
      | ok rest' =>
        rw [hr] at h
        simp at h
        subst h
        simp [noBinBody, lowerItem_noBin s s' hs, lowerBody_noBin rest rest' hr]

end

mutual

theorem lowerItem_fixed : ∀ it, noBinItem it = true → lowerItem it = .ok it
  | .exprStmt e, h => by
    unfold lowerItem
    rw [lowerExpr_fixed e (by simpa [noBinItem] using h)]
  | .tryStmt e, h => by
    unfold lowerItem
    rw [lowerExpr_fixed e (by simpa [noBinItem] using h)]
  | .catchStmt fn e, h => by
    unfold lowerItem
    rw [lowerExpr_fixed e (by simpa [noBinItem] using h)]
  | .varDecl m t n e, h => by
    unfold lowerItem
    rw [lowerExpr_fixed e (by simpa [noBinItem] using h)]
  | .assignStmt n e, h => by
    unfold lowerItem
    rw [lowerExpr_fixed e (by simpa [noBinItem] using h)]
  | .returnStmt e, h => by
    unfold lowerItem
    rw [lowerExpr_fixed e (by simpa [noBinItem] using h)]
  | .funcDecl n ps b attrs, h => by
    unfold lowerItem
    rw [lowerBody_fixed b (by simpa [noBinItem] using h)]
  | .guaranteeDecl d, _ => rfl
  | .typeGroupDecl d, _ => rfl
  | .registerDecl d, _ => rfl
  | .implDecl d, _ => rfl
  | .sigDecl d, _ => rfl

theorem lowerBody_fixed : ∀ b, noBinBody b = true → lowerBody b = .ok b
  | .nil, _ => rfl
  | .cons s rest, h => by
    have h' := h
    simp [noBinBody] at h'
    unfold lowerBody
    rw [lowerItem_fixed s h'.1, lowerBody_fixed rest h'.2]

end

theorem lowerItems_noBin : ∀ l l', lowerItems l = .ok l' → noBinItems l' = true := by
  intro l
  induction l with
  | nil => intro l' h; simp [lowerItems] at h; subst h; rfl
  | cons it rest ih =>
    intro l' h
    unfold lowerItems at h
    cases hi : lowerItem it with
    | error err => rw [hi] at h; exact absurd h (by simp)
    | ok it' =>
      rw [hi] at h
      cases hr : lowerItems rest with
      | error err => rw [hr] at h; exact absurd h (by simp)
      | ok rest' =>
        rw [hr] at h
        simp at h
        subst h
        simp [noBinItems, lowerItem_noBin it it' hi, ih rest' hr]

theorem lowerItems_fixed : ∀ l, noBinItems l = true → lowerItems l = .ok l := by
  intro l
  induction l with
  | nil => intro _; rfl
  | cons it rest ih =>
    intro h
    simp [noBinItems] at h
    unfold lowerItems
    rw [lowerItem_fixed it h.1, ih h.2]

/-- C5: lowering is idempotent, its output contains no `BinaryExpr` anywhere
(call arguments and function bodies included), and every `BinaryExpr(op,l,r)`
with `op` in `+ - * /` is rewritten to a positional `CallExpr` of
`add`/`sub`/`mul`/`div` on the recursively lowered operands. -/
theorem c5_lowering_idempotent_noBinary :
    (∀ P Q, lowerItems P = .ok Q → lowerItems Q = .ok Q ∧ noBinItems Q = true) ∧
    (opToCallee "+" = some "add" ∧ opToCallee "-" = some "sub" ∧
      opToCallee "*" = some "mul" ∧ opToCallee "/" = some "div") ∧
    (∀ op c l r l' r', opToCallee op = some c →
      lowerExpr l = .ok l' → lowerExpr r = .ok r' →
      lowerExpr (.binaryExpr op l r) =
        .ok (.callExpr c (.posArg l' (.posArg r' .nil)) "pos")) := by
  refine ⟨?_, ⟨rfl, rfl, rfl, rfl⟩, ?_⟩
  · intro P Q h
    have hn := lowerItems_noBin P Q h
    exact ⟨lowerItems_fixed Q hn, hn⟩
  · intro op c l r l' r' hc hl hr
    unfold lowerExpr
    rw [hl, hr, hc]

/-- Concrete run of C5: lowering `let y: Int = (1 + 2)` then `print(y)`
reaches a fixed point with no binary nodes, via the main theorem. -/
theorem c5_lowering_idempotent_noBinary_witness :
    lowerItems
        [.varDecl false (TypeRef.mk "Int") "y" (.binaryExpr "+" (.intLit 1) (.intLit 2)),
         .exprStmt (.callExpr "print" (.posArg (.identExpr "y") .nil) "pos")] =
      .ok
        [.varDecl false (TypeRef.mk "Int") "y"
            (.callExpr "add" (.posArg (.intLit 1) (.posArg (.intLit 2) .nil)) "pos"),
         .exprStmt (.callExpr "print" (.posArg (.identExpr "y") .nil) "pos")] ∧
    lowerItems
        [.varDecl false (TypeRef.mk "Int") "y"
            (.callExpr "add" (.posArg (.intLit 1) (.posArg (.intLit 2) .nil)) "pos"),
         .exprStmt (.callExpr "print" (.posArg (.identExpr "y") .nil) "pos")] =
      .ok
        [.varDecl false (TypeRef.mk "Int") "y"
            (.callExpr "add" (.posArg (.intLit 1) (.posArg (.intLit 2) .nil)) "pos"),
         .exprStmt (.callExpr "print" (.posArg (.identExpr "y") .nil) "pos")] ∧
    noBinItems
        [.varDecl false (TypeRef.mk "Int") "y"
            (.callExpr "add" (.posArg (.intLit 1) (.posArg (.intLit 2) .nil)) "pos"),
         .exprStmt (.callExpr "print" (.posArg (.identExpr "y") .nil) "pos")] = true := by
  have h1 :
      lowerItems
          [.varDecl false (TypeRef.mk "Int") "y" (.binaryExpr "+" (.intLit 1) (.intLit 2)),
           .exprStmt (.callExpr "print" (.posArg (.identExpr "y") .nil) "pos")] =
        .ok
          [.varDecl false (TypeRef.mk "Int") "y"
              (.callExpr "add" (.posArg (.intLit 1) (.posArg (.intLit 2) .nil)) "pos"),
           .exprStmt (.callExpr "print" (.posArg (.identExpr "y") .nil) "pos")] := by
    rfl
  have h2 := (c5_lowering_idempotent_noBinary.1 _ _ h1)
  exact ⟨h1, h2.1, h2.2⟩

/-- C1: the claim states that a builtin's `ZeroDivisionError` becomes
`RaisedFailure(DivideByZero)` and that `DivideByZero` is a member of the
`FailureId` enumeration.  The enumeration in `core/failure_spec.py` has no
such member, so the handler in `eval_call` instead raises Python's
`AttributeError` at `FailureId.DivideByZero`: running `div(1.0, 0.0)`
through sig-based dispatch ends in that `AttributeError`, no `FailureId`
member has the value `DivideByZero`, and the member list is the five-name
list (with the misspelt `UnexpecterErr`), not the six-name list of the
claim. -/
theorem c1_divide_by_zero_not_in_enum :
    evalItems 10 c1Syms [] c1Prog = .error (.pyAttributeError "DivideByZero") ∧
    FailureId.fromMemberName "DivideByZero" = none ∧
    (∀ fid : FailureId, fid.value ≠ "DivideByZero") ∧
    FailureId.memberNames = ["PrintErr", "IOErr", "TimeErr", "RandomErr", "UnexpecterErr"] ∧
    "DivideByZero" ∉ FailureId.memberNames := by
  refine ⟨rfl, rfl, by decide, rfl, by decide⟩

theorem takeCatches_catchItems (catches : List (String × Expr)) (rest : List Item)
    (h : headNotCatch rest = true) :
    takeCatches (catchItems catches rest) = catches := by
  induction catches with
  | nil =>
    cases rest with
    | nil => rfl
    | cons it l => cases it <;> simp_all [catchItems, takeCatches, headNotCatch, isCatchItem]
  | cons p ps ih =>
    obtain ⟨n, e⟩ := p
    simp [catchItems, takeCatches, ih]

theorem dropCatches_catchItems (catches : List (String × Expr)) (rest : List Item)
    (h : headNotCatch rest = true) :
    dropCatches (catchItems catches rest) = rest := by
  induction catches with
  | nil =>
    cases rest with
    | nil => rfl
    | cons it l => cases it <;> simp_all [catchItems, dropCatches, headNotCatch, isCatchItem]
  | cons p ps ih =>
    obtain ⟨n, e⟩ := p
    simp [catchItems, dropCatches, ih]

theorem runCatches_eq_find (fuel : Nat) (syms : Syms) (env : Env) (rf : FailureId) :
    ∀ catches, runCatches fuel syms env rf catches =
      match catches.find? (fun p => rf.value == p.1) with
      | none => .error (.raised rf)
      | some p => catchOutcome (evalExpr fuel syms env none p.2) p.1 := by
  intro catches
  induction catches with
  | nil => rfl
  | cons p ps ih =>
    obtain ⟨name, ce⟩ := p
    by_cases hm : rf.value = name
    · simp [runCatches, hm, List.find?]
    · have hb : (rf.value == name) = false := by simp [hm]
      simp [runCatches, hm, List.find?, hb, ih]

/-- C2: for a top-level `TryStmt` followed by adjacent `CatchStmt`s, a
normally completing try expression skips all catches; a `RaisedFailure`
is handed to the catch scan, whose result is that of the first catch whose
`failure_name` equals the failure's name (re-raising when none matches);
a matched catch swallows a further failure of the same name, propagates
any other one, and execution continues after the group when the catch
handled the failure. -/
theorem c2_try_catch_group :
    ∀ (fuel : Nat) (syms : Syms) (env : Env) (e : Expr)
      (catches : List (String × Expr)) (rest : List Item),
      catches ≠ [] → headNotCatch rest = true →
      (evalItems (fuel + 1) syms env (.tryStmt e :: catchItems catches rest) =
        match evalExpr fuel syms env none e with
        | .ok _ => evalItems fuel syms env rest
        | .error (.raised rf) =>
          (match runCatches fuel syms env rf catches with
           | .ok _ => evalItems fuel syms env rest
           | .error err => .error err)
        | .error err => .error err) ∧
      (∀ rf, runCatches fuel syms env rf catches =
        match catches.find? (fun p => rf.value == p.1) with
        | none => .error (.raised rf)
        | some p => catchOutcome (evalExpr fuel syms env none p.2) p.1) ∧
      (∀ v name, catchOutcome (.ok v) name = .ok ()) ∧
      (∀ rf2 name, catchOutcome (.error (.raised rf2)) name =
        if rf2.value = name then .ok () else .error (.raised rf2)) ∧
      (∀ err name, (∀ rf2, err ≠ RtErr.raised rf2) →
        catchOutcome (.error err) name = .error err) := by
  intro fuel syms env e catches rest hne hrest
  refine ⟨?_, fun rf => runCatches_eq_find fuel syms env rf catches, fun _ _ => rfl,
    fun _ _ => rfl, ?_⟩
  · cases catches with
    | nil => exact absurd rfl hne
    | cons p ps =>
      obtain ⟨n, ce⟩ := p
      have htake := takeCatches_catchItems ((n, ce) :: ps) rest hrest
      have hdrop := dropCatches_catchItems ((n, ce) :: ps) rest hrest
      simp only [catchItems] at htake hdrop ⊢
      simp only [evalItems]
      rw [htake, hdrop]
  · intro err name hnr
    cases err with
    | raised rf2 => exact absurd rfl (hnr rf2)
    | _ => rfl

/-- Concrete run of C2: a try whose expression completes skips its catch,
and the catch scan handles a `PrintErr` failure by running the handler. -/
theorem c2_try_catch_group_witness :
    evalItems 6 emptySyms [] [.tryStmt (.intLit 1), .catchStmt "PrintErr" (.intLit 2)] =
      .ok [] ∧
    runCatches 5 emptySyms [] .printErr [("PrintErr", .intLit 2)] = .ok () := by
  have h := c2_try_catch_group 5 emptySyms [] (.intLit 1) [("PrintErr", .intLit 2)] []
    (by simp) rfl
  constructor
  · have h1 := h.1
    have he : evalExpr 5 emptySyms [] none (.intLit 1) = .ok (.int 1) := rfl
    rw [he] at h1
    simpa [catchItems] using h1
  · have h2 := h.2.1 .printErr
    have he : evalExpr 5 emptySyms [] none (.intLit 2) = .ok (.int 2) := rfl
    simp only [List.find?, FailureId.value] at h2
    norm_num at h2
    rw [h2, he]
    rfl


theorem map_typ_eq_iff (xs ys : List GParam) :
    xs.map (fun p => p.typ.name) = ys.map (fun p => p.typ.name) ↔
      (xs.length = ys.length ∧ ∀ q ∈ xs.zip ys, q.1.typ.name = q.2.typ.name) := by
  induction xs generalizing ys with
  | nil => cases ys <;> simp
  | cons x xs ih =>
    cases ys with
    | nil => simp
    | cons y ys =>
      simp only [List.map_cons, List.cons.injEq, List.zip_cons_cons, List.length_cons,
        List.mem_cons, Nat.succ.injEq]
      rw [ih]
      constructor
      · rintro ⟨h1, h2, h3⟩
        refine ⟨h2, fun q hq => ?_⟩
        rcases hq with hq | hq
        · subst hq; exact h1
        · exact h3 q hq
      · rintro ⟨h1, h2⟩
        exact ⟨h2 (x, y) (Or.inl rfl), h1, fun q hq => h2 q (Or.inr hq)⟩

/-- C4, corrected: the symbol builder accepts a `FuncDecl` exactly when a
sig of the same name exists (and the name is not yet declared), the
*ordered* list of the func's parameter type names equals the sig's
pointwise, and the declared return type name equals the sig's; a func
whose parameter types are a mere permutation of the sig's is rejected. -/
theorem c4_funcdecl_ordered_param_types (funcs : List String)
    (sigs : List (String × SigDecl)) (f : BFuncDecl) :
    checkFuncDecl funcs sigs f = .ok () ↔
      (f.name ∉ funcs ∧ ∃ sig, alookup sigs f.name = some sig ∧
        f.params.map (fun p => p.typ.name) = sig.params.map (fun p => p.typ.name) ∧
        f.ret.name = sig.ret.name) := by
  constructor
  · intro h
    unfold checkFuncDecl at h
    split at h
    · exact absurd h (by simp)
    · rename_i hmem
      split at h
      · exact absurd h (by simp)
      · rename_i sig hsig
        by_cases hcond : (f.params.length ≠ sig.params.length ∨
            ((f.params.zip sig.params).any fun q => decide (q.1.typ.name ≠ q.2.typ.name)) = true)
        · rw [if_pos hcond] at h
          exact absurd h (by simp)
        · rw [if_neg hcond] at h
          by_cases hret : f.ret.name ≠ sig.ret.name
          · rw [if_pos hret] at h
            exact absurd h (by simp)
          · refine ⟨hmem, sig, hsig, ?_, by simpa using hret⟩
            rw [map_typ_eq_iff]
            push_neg at hcond
            refine ⟨hcond.1, fun q hq => ?_⟩
            have hB := hcond.2
            simp only [ne_eq, Bool.not_eq_true, List.any_eq_false,
              decide_eq_false_iff_not, not_not] at hB
            exact hB q hq
  · rintro ⟨hmem, sig', hsig', hmap, hret⟩
    unfold checkFuncDecl
    rw [if_neg hmem]
    simp only [hsig']
    have hcond : ¬(f.params.length ≠ sig'.params.length ∨
        ((f.params.zip sig'.params).any fun q => decide (q.1.typ.name ≠ q.2.typ.name)) = true) := by
      rw [map_typ_eq_iff] at hmap
      intro hor
      rcases hor with hlen | hany
      · exact hlen hmap.1
      · rw [List.any_eq_true] at hany
        obtain ⟨q, hq, hqq⟩ := hany
        rw [decide_eq_true_eq] at hqq
        exact hqq (hmap.2 q hq)
    rw [if_neg hcond, if_neg (fun hcon => hcon hret)]

/-- C4 counterexample: the parameter-type multisets of `c4Func` and
`c4Sig` coincide (the func's `(Float, Int)` is a permutation of the sig's
`(Int, Float)`), yet the builder rejects the func with the
signature-mismatch error, refuting the multiset reading of the claim. -/
theorem c4_param_permutation_rejected :
    (Multiset.ofList (c4Func.params.map fun p => p.typ.name) =
      Multiset.ofList (c4Sig.params.map fun p => p.typ.name)) ∧
    checkFuncDecl [] [("pair", c4Sig)] c4Func =
      .error "func 'pair' signature does not match its sig" := by
  constructor
  · decide
  · rfl

/-- Concrete run of C4: a func matching the sig's parameter order is
accepted, via the main theorem. -/
theorem c4_funcdecl_ordered_param_types_witness :
    checkFuncDecl [] [("pair", c4Sig)] c4FuncOk = .ok () := by
  apply (c4_funcdecl_ordered_param_types [] [("pair", c4Sig)] c4FuncOk).mpr
  exact ⟨by simp, c4Sig, rfl, rfl, rfl⟩

/-- C6: a top-level `ExprStmt` is checked by inferring its expression's
type with no expected type; a non-`Unit` result is a `TypecheckError`
(with the source's message) and a `Unit` result lets the walk continue
unchanged. -/
theorem c6_exprstmt_must_be_unit :
    ∀ (fuel : Nat) (syms : TSymbols) (env : List (String × String)) (e : Expr)
      (rest : List Item) (t : String),
      typeExpr fuel syms env none e = .ok t →
      ((t ≠ "Unit" → typecheckItems fuel syms env (.exprStmt e :: rest) =
          .error ("only Unit expression are allowed as statements, got '" ++ t)) ∧
       (t = "Unit" → typecheckItems fuel syms env (.exprStmt e :: rest) =
          typecheckItems fuel syms env rest)) := by
  intro fuel syms env e rest t h
  constructor
  · intro hne
    simp [typecheckItems, h, hne]
  · intro heq
    simp [typecheckItems, h, heq]

/-- Concrete run of C6: the `Int`-typed statement `3` is rejected with the
source's message, and the `Unit`-typed statement `noop()` is accepted. -/
theorem c6_exprstmt_must_be_unit_witness :
    typecheckItems 10 c6Syms [] [.exprStmt (.intLit 3)] =
      .error "only Unit expression are allowed as statements, got 'Int" ∧
    typecheckItems 10 c6Syms [] [.exprStmt (.callExpr "noop" .nil "pos")] = .ok [] := by
  have h1 : typeExpr 10 c6Syms [] none (.intLit 3) = .ok "Int" := rfl
  have h2 : typeExpr 10 c6Syms [] none (.callExpr "noop" .nil "pos") = .ok "Unit" := rfl
  constructor
  · have h := (c6_exprstmt_must_be_unit 10 c6Syms [] (.intLit 3) [] "Int" h1).1 (by decide)
    simpa using h
  · have h := (c6_exprstmt_must_be_unit 10 c6Syms [] (.callExpr "noop" .nil "pos") []
      "Unit" h2).2 rfl
    simpa [typecheckItems] using h

/-- C8: the loader accepts a sig entry whose `builtin` is a string or an
explicit null, rejects a present non-null non-string value, but *also
accepts* an entry with no `builtin` key at all (returning `builtin = None`),
because `dict.get` cannot distinguish a missing key from an explicit null:
the claimed rejection of the missing key does not happen. -/
theorem c8_missing_builtin_accepted :
    loadSigEntry (.obj [("name", .str "f"), ("params", .arr []), ("ret", .str "Unit")]) =
      .ok ⟨"f", [], ⟨"Unit"⟩, [], .arr [], .arr [], none⟩ ∧
    loadSigEntry (.obj [("name", .str "f"), ("params", .arr []), ("ret", .str "Unit"),
        ("builtin", .null)]) =
      .ok ⟨"f", [], ⟨"Unit"⟩, [], .arr [], .arr [], none⟩ ∧
    loadSigEntry (.obj [("name", .str "f"), ("params", .arr []), ("ret", .str "Unit"),
        ("builtin", .str "core.int.add")]) =
      .ok ⟨"f", [], ⟨"Unit"⟩, [], .arr [], .arr [], some "core.int.add"⟩ ∧
    loadSigEntry (.obj [("name", .str "f"), ("params", .arr []), ("ret", .str "Unit"),
        ("builtin", .num 3)]) =
      .error "Sig 'f' is missing 'builtin': use null to indicate 'intentionally nobuiltin'" := by
  exact ⟨rfl, rfl, rfl, rfl⟩

theorem effectCheck_extends :
    ∀ (n : Nat) (l : List Item), l.length ≤ n → ∀ (syms : EffSyms) (diags : List Diagnostic),
      (∃ t, effectCheckItems syms diags l = diags ++ t) ∧
      (∃ t, effectSkipCatches syms diags l = diags ++ t) := by
  intro n
  induction n with
  | zero =>
    intro l hl syms diags
    have : l = [] := List.length_eq_zero.mp (Nat.le_zero.mp hl)
    subst this
    exact ⟨⟨[], by simp [effectCheckItems]⟩, ⟨[], by simp [effectSkipCatches, effectCheckItems]⟩⟩
  | succ n ih =>
    intro l hl syms diags
    have hcheck : ∃ t, effectCheckItems syms diags l = diags ++ t := by
      cases l with
      | nil => exact ⟨[], by simp [effectCheckItems]⟩
      | cons it rest =>
        have hr : rest.length ≤ n := by simp at hl; omega
        cases it with
        | tryStmt e =>
          simp only [effectCheckItems]
          split
          · obtain ⟨t, ht⟩ := (ih rest hr syms
              (warnDiag diags "UNHANDLED_FAILURES" _)).2
            exact ⟨_, by rw [ht, warnDiag, List.append_assoc]⟩
          · exact (ih rest hr syms diags).2
        | varDecl m ty nm e =>
          simp only [effectCheckItems, stmtExpr]
          split
          · obtain ⟨t, ht⟩ := (ih rest hr syms (warnDiag diags "UNHANDLED_FAILURES" _)).1
            exact ⟨_, by rw [ht, warnDiag, List.append_assoc]⟩
          · exact (ih rest hr syms diags).1
        | assignStmt nm e =>
          simp only [effectCheckItems, stmtExpr]
          split
          · obtain ⟨t, ht⟩ := (ih rest hr syms (warnDiag diags "UNHANDLED_FAILURES" _)).1
            exact ⟨_, by rw [ht, warnDiag, List.append_assoc]⟩
          · exact (ih rest hr syms diags).1
        | exprStmt e =>
          simp only [effectCheckItems, stmtExpr]
          split
          · obtain ⟨t, ht⟩ := (ih rest hr syms (warnDiag diags "UNHANDLED_FAILURES" _)).1
            exact ⟨_, by rw [ht, warnDiag, List.append_assoc]⟩
          · exact (ih rest hr syms diags).1
        | guaranteeDecl d => simpa [effectCheckItems, stmtExpr] using (ih rest hr syms diags).1
        | typeGroupDecl d => simpa [effectCheckItems, stmtExpr] using (ih rest hr syms diags).1
        | registerDecl d => simpa [effectCheckItems, stmtExpr] using (ih rest hr syms diags).1
        | implDecl d => simpa [effectCheckItems, stmtExpr] using (ih rest hr syms diags).1
        | sigDecl d => simpa [effectCheckItems, stmtExpr] using (ih rest hr syms diags).1
        | funcDecl nm ps b attrs =>
          simpa [effectCheckItems, stmtExpr] using (ih rest hr syms diags).1
        | catchStmt fn e => simpa [effectCheckItems, stmtExpr] using (ih rest hr syms diags).1
        | returnStmt e => simpa [effectCheckItems, stmtExpr] using (ih rest hr syms diags).1
    refine ⟨hcheck, ?_⟩
    cases l with
    | nil => exact ⟨[], by simp [effectSkipCatches, effectCheckItems]⟩
    | cons it rest =>
      have hr : rest.length ≤ n := by simp at hl; omega
      cases it with
      | catchStmt fn e => simpa [effectSkipCatches] using (ih rest hr syms diags).2
      | tryStmt e => simpa [effectSkipCatches] using hcheck
      | varDecl m ty nm e => simpa [effectSkipCatches] using hcheck
      | assignStmt nm e => simpa [effectSkipCatches] using hcheck
      | exprStmt e => simpa [effectSkipCatches] using hcheck
      | guaranteeDecl d => simpa [effectSkipCatches] using hcheck
      | typeGroupDecl d => simpa [effectSkipCatches] using hcheck
      | registerDecl d => simpa [effectSkipCatches] using hcheck
      | implDecl d => simpa [effectSkipCatches] using hcheck
      | sigDecl d => simpa [effectSkipCatches] using hcheck
      | funcDecl nm ps b attrs => simpa [effectSkipCatches] using hcheck
      | returnStmt e => simpa [effectSkipCatches] using hcheck

/-- C3 (spec-modelled effect policy over the source-embedded
`Diagnostics`): a statement with a non-empty residual failure set makes
the checker append, through `Diagnostics.warn`, a `warning` record with
code `UNHANDLED_FAILURES`, after which the walk continues; an empty
residual leaves the sink untouched; the sink only ever grows (never a
fatal error), and the modelled compile returns the program regardless. -/
theorem c3_unhandled_failures_warning :
    ∀ (syms : EffSyms) (diags : List Diagnostic) (it : Item) (e : Expr) (rest : List Item),
      stmtExpr it = some e →
      ((effectOfExpr syms e ≠ [] →
          effectCheckItems syms diags (it :: rest) =
            effectCheckItems syms
              (warnDiag diags "UNHANDLED_FAILURES" (unhandledMsg (effectOfExpr syms e))) rest ∧
          (warnDiag diags "UNHANDLED_FAILURES" (unhandledMsg (effectOfExpr syms e)) =
            diags ++ [⟨"warning", "UNHANDLED_FAILURES", unhandledMsg (effectOfExpr syms e), none⟩]) ∧
          Diagnostic.mk "warning" "UNHANDLED_FAILURES" (unhandledMsg (effectOfExpr syms e)) none
            ∈ effectCheckItems syms diags (it :: rest)) ∧
       (effectOfExpr syms e = [] →
          effectCheckItems syms diags (it :: rest) = effectCheckItems syms diags rest) ∧
       (compileEffects syms (it :: rest)).2 = it :: rest) := by
  intro syms diags it e rest hse
  have hstep : ∀ (d : List Diagnostic), effectOfExpr syms e ≠ [] →
      effectCheckItems syms d (it :: rest) =
        effectCheckItems syms
          (warnDiag d "UNHANDLED_FAILURES" (unhandledMsg (effectOfExpr syms e))) rest := by
    intro d hne
    cases it <;> simp_all [effectCheckItems, stmtExpr]
  have hskip : effectOfExpr syms e = [] →
      effectCheckItems syms diags (it :: rest) = effectCheckItems syms diags rest := by
    intro hz
    cases it <;> simp_all [effectCheckItems, stmtExpr]
  refine ⟨fun hne => ⟨hstep diags hne, rfl, ?_⟩, hskip, rfl⟩
  rw [hstep diags hne]
  obtain ⟨t, ht⟩ := (effectCheck_extends rest.length rest le_rfl syms
    (warnDiag diags "UNHANDLED_FAILURES" (unhandledMsg (effectOfExpr syms e)))).1
  rw [ht, warnDiag]
  simp

/-- Concrete run of C3: the statement `boom()` (whose sig declares
`PrintErr`) produces exactly one `UNHANDLED_FAILURES` warning and the
modelled compile still returns the program. -/
theorem c3_unhandled_failures_warning_witness :
    effectCheckItems c3Syms [] [.exprStmt (.callExpr "boom" .nil "pos")] =
      [⟨"warning", "UNHANDLED_FAILURES", "PrintErr", none⟩] ∧
    (compileEffects c3Syms [.exprStmt (.callExpr "boom" .nil "pos")]).2 =
      [.exprStmt (.callExpr "boom" .nil "pos")] := by
  have h := c3_unhandled_failures_warning c3Syms [] (.exprStmt (.callExpr "boom" .nil "pos"))
    (.callExpr "boom" .nil "pos") [] rfl
  have hne : effectOfExpr c3Syms (.callExpr "boom" .nil "pos") ≠ [] := by
    simp [effectOfExpr, effectOfArgs, c3Syms, alookup]
  refine ⟨?_, h.2.2⟩
  have hstep := (h.1 hne).1
  rw [hstep]
  simp only [effectCheckItems]
  rfl


theorem eat_of_tmatchT (toks : List Token) (i : Nat) (k t : String)
    (h : tmatchT toks i k t = true) :
    eat toks i k (some t) = .ok (tokAt toks i, i + 1) := by
  unfold tmatchT at h
  rw [Bool.and_eq_true, decide_eq_true_eq, decide_eq_true_eq] at h
  unfold eat
  simp [h.1, h.2]

/-- C7: an infix operator is only legal inside explicit parentheses and a
parenthesised group must contain an operator: (i) an operator right after
a parsed operand (outside parentheses) makes `parse_expr` raise the
`SyntaxError`; (ii) a parenthesised group whose scan saw no operator is
rejected at the closing parenthesis; and concretely the statement
`1 + 2`, the declaration `let y: Int = 1 + 2`, and the operator-free
groups `(x)` and `(div(1,2))` all fail to parse. -/
theorem c7_infix_only_inside_parens :
    (∀ (fuel : Nat) (toks : List Token) (i : Nat) (e : Expr) (j : Nat),
      tmatchT toks i "SYM" "(" = false →
      parseOperand fuel toks i = .ok (e, j) →
      isOpAt toks j = true →
      parseExpr (fuel + 1) toks i =
        .error ("infix operator '" ++ (tokAt toks j).text ++
          "' is only allowed inside '(...)' at " ++ toString (tokAt toks j).pos)) ∧
    (∀ (fuel : Nat) (toks : List Token) (i : Nat) (e : Expr) (j : Nat),
      tmatchT toks i "SYM" "(" = true →
      parseOpChain fuel toks (i + 1) 0 = .ok (e, false, j) →
      tmatchT toks j "SYM" ")" = true →
      parseParenGroup (fuel + 1) toks i =
        .error ("parentheses are only for infix expressions; " ++
          "remove '(...)' or write an operator inside at " ++
          toString (tokAt toks i).pos)) ∧
    isErr (parse "1 + 2") = true ∧
    isErr (parse "let y: Int = 1 + 2") = true ∧
    isErr (parse "let y: Int = (x)") = true ∧
    isErr (parse "let y: Int = (div(1,2))") = true := by
  refine ⟨?_, ?_, rfl, rfl, rfl, rfl⟩
  · intro fuel toks i e j hnp hop hisop
    simp only [parseExpr, hnp, Bool.false_eq_true, if_false, hop, hisop, if_true]
  · intro fuel toks i e j hp hchain hcp
    simp only [parseParenGroup, eat_of_tmatchT toks i "SYM" "(" hp, hchain,
      eat_of_tmatchT toks j "SYM" ")" hcp, Bool.not_false, if_true]

/-- Concrete runs of C7's two general clauses: the operand-then-operator
shape `1 + 2` is rejected by `parse_expr`, and the operator-free group
`(x)` is rejected by `parse_paren_infix_expr`. -/
theorem c7_infix_only_inside_parens_witness :
    parseExpr 6 [⟨"INT", "1", 0⟩, ⟨"SYM", "+", 2⟩, ⟨"INT", "2", 4⟩, ⟨"EOF", "", 5⟩] 0 =
      .error "infix operator '+' is only allowed inside '(...)' at 2" ∧
    parseParenGroup 6
        [⟨"SYM", "(", 0⟩, ⟨"IDENT", "x", 1⟩, ⟨"SYM", ")", 2⟩, ⟨"EOF", "", 3⟩] 0 =
      .error ("parentheses are only for infix expressions; " ++
        "remove '(...)' or write an operator inside at 0") := by
  constructor
  · exact c7_infix_only_inside_parens.1 5
      [⟨"INT", "1", 0⟩, ⟨"SYM", "+", 2⟩, ⟨"INT", "2", 4⟩, ⟨"EOF", "", 5⟩] 0
      (.intLit 1) 1 rfl rfl rfl
  · exact c7_infix_only_inside_parens.2.1 5
      [⟨"SYM", "(", 0⟩, ⟨"IDENT", "x", 1⟩, ⟨"SYM", ")", 2⟩, ⟨"EOF", "", 3⟩] 0
      (.identExpr "x") 2 rfl rfl rfl

/-- C9: the catch handler is re-parsed from the token run to end of line
by reading a single expression, and the sub-parser's stopping index is
discarded: any tokens after the first complete expression are silently
ignored.  Concretely, `catch PrintErr print(1) print(2)` keeps only
`print(1)`, and even ill-formed junk (`x ) 42`) after the expression is
ignored with no error. -/
theorem c9_catch_handler_discards_trailing_tokens :
    (∀ (fuel : Nat) (handlerToks : List Token) (e : Expr) (j : Nat),
      parseExpr fuel (handlerToks ++
          [⟨"EOF", "", ((handlerToks.getLast?).map (·.pos)).getD 0⟩]) 0 = .ok (e, j) →
      parseCatchBody fuel handlerToks = .ok e) ∧
    parse "catch PrintErr print(1) print(2)\n" =
      .ok [.catchStmt "PrintErr" (.callExpr "print" (.posArg (.intLit 1) .nil) "pos")] ∧
    parse "catch IOErr x ) 42" = .ok [.catchStmt "IOErr" (.identExpr "x")] := by
  refine ⟨?_, rfl, rfl⟩
  intro fuel handlerToks e j h
  unfold parseCatchBody
  dsimp only
  rw [h]

/-- Concrete run of C9's general clause: a handler run with junk after the
first expression (the tokens `x ) 42`) yields just that expression. -/
theorem c9_catch_handler_discards_trailing_tokens_witness :
    parseCatchBody 9 [⟨"IDENT", "x", 0⟩, ⟨"SYM", ")", 2⟩, ⟨"INT", "42", 4⟩] =
      .ok (.identExpr "x") :=
  c9_catch_handler_discards_trailing_tokens.1 9
    [⟨"IDENT", "x", 0⟩, ⟨"SYM", ")", 2⟩, ⟨"INT", "42", 4⟩] (.identExpr "x") 1 rfl

/-- C10: the at-least-one-operator check of a parenthesised group counts
only operators at the top nesting level of that group: an operand (a
nested parenthesised group included) followed by no operator yields
`saw_op = false`, so `((1 + 2))` is a `SyntaxError` even though the text
contains an infix operator, while the singly-nested `(1 + 2)` parses. -/
theorem c10_operator_count_is_top_level_only :
    (∀ (fuel : Nat) (toks : List Token) (i : Nat) (e : Expr) (j : Nat),
      parseOperand fuel toks i = .ok (e, j) →
      isOpAt toks j = false →
      parseOpChain (fuel + 1) toks i 0 = .ok (e, false, j)) ∧
    isErr (parse "let y: Int = ((1 + 2))") = true ∧
    parse "let y: Int = (1 + 2)" =
      .ok [.varDecl false ⟨"Int"⟩ "y" (.binaryExpr "+" (.intLit 1) (.intLit 2))] := by
  refine ⟨?_, rfl, rfl⟩
  intro fuel toks i e j hop hnop
  cases fuel with
  | zero => exact absurd hop (by simp [parseOperand])
  | succ f =>
    simp only [parseOpChain, hop, opLoop, hnop, Bool.false_eq_true, if_false]

/-- Concrete run of C10's general clause: the sole operand `7` followed by
no operator leaves the scan with `saw_op = false`. -/
theorem c10_operator_count_is_top_level_only_witness :
    parseOpChain 6 [⟨"INT", "7", 0⟩, ⟨"EOF", "", 1⟩] 0 0 =
      .ok (.intLit 7, false, 1) :=
  c10_operator_count_is_top_level_only.1 5 [⟨"INT", "7", 0⟩, ⟨"EOF", "", 1⟩] 0
    (.intLit 7) 1 rfl rfl

end Ginger
